import Mathlib

/-!
Verification development for the quality-gate pipeline of the `agent`
repository: the shared state model (`core/state.py`), the quality gate
(`core/quality.py`), the sandboxed command runner (`core/sandbox.py`), the
security/pattern engine (`agents/security.py`, `config/rules.py`) and the
orchestrator (`core/orchestrator.py`).

The Python sources are shallowly embedded: Python classes become structures,
regular-expression matchers become executable character-list recognizers that
transliterate each pattern, external subprocess outcomes become explicit
parameters, and stateful methods become pure state-passing functions.
-/

set_option autoImplicit false

namespace AgentPipeline

/-! ### Data model (`core/state.py`) -/

/-- `FileEntry` from `core/state.py`. -/
structure FileEntry where
  path : String
  content : String
  language : String
deriving Repr, DecidableEq

/-- `Issue` from `core/state.py`.  `line = none` models Python `line=None`,
a file-scoped finding. -/
structure Issue where
  source : String
  severity : String
  file : String
  line : Option Nat
  message : String
  suggestion : String
deriving Repr, DecidableEq

/-- `Iteration` from `core/state.py`. -/
structure Iteration where
  number : Nat
  files : List FileEntry
  issues : List Issue
  lint_passed : Bool
  tests_passed : Bool
  security_passed : Bool
deriving Repr, DecidableEq

/-- `PipelineState` from `core/state.py` (dataclass field for field, with the
same defaults; `output_dir` is carried but file writing itself is I/O outside
the embedding). -/
structure PipelineState where
  request : String := ""
  category : String := ""
  stack : String := ""
  spec : String := ""
  file_manifest : List String := []
  iterations : List Iteration := []
  current_files : List FileEntry := []
  patch_instructions : String := ""
  status : String := "planning"
  max_iterations : Nat := 2
  output_dir : String := ""
  errors : List String := []
deriving Repr, DecidableEq

/-! ### Defaults (`config/defaults.py`) -/

/-- `DEFAULTS["hard_max_iterations"]` — the absolute iteration ceiling. -/
def hard_max_iterations : Nat := 5

/-- `DEFAULTS["sandbox_timeout"]`. -/
def sandbox_timeout : Nat := 30

/-- `DEFAULTS["allowed_commands"]`. -/
def allowed_commands : List String := ["python3", "pip", "flake8", "pytest", "black"]

/-! ### Quality gate (`core/quality.py`) -/

/-- `quality_gates_pass` from `core/quality.py`:
`errors = [i for i in iteration.issues if i.severity == "error"]`;
`return len(errors) == 0 and iteration.lint_passed and iteration.security_passed`. -/
def quality_gates_pass (iteration : Iteration) : Bool :=
  (iteration.issues.filter (fun i => i.severity == "error")).length == 0
    && iteration.lint_passed && iteration.security_passed

/-- Claim C1: `quality_gates_pass it` is true iff no Issue in `it.issues` has
severity `"error"`, `it.lint_passed` holds and `it.security_passed` holds; the
verdict is independent of `it.tests_passed` (flipping `tests_passed` never
changes it). -/
theorem quality_gate_characterization (it : Iteration) :
    (quality_gates_pass it = true ↔
      ((∀ i ∈ it.issues, i.severity ≠ "error") ∧
        it.lint_passed = true ∧ it.security_passed = true)) ∧
    (∀ b : Bool, quality_gates_pass { it with tests_passed := b } = quality_gates_pass it) := by
  constructor
  · simp [quality_gates_pass, List.length_eq_zero, List.filter_eq_nil_iff, and_assoc]
  · intro b
    rfl

/-! ### Sandbox (`core/sandbox.py`)

`run_in_sandbox(command, cwd, timeout)` is embedded as a pure function.  The
Python call is dynamically typed, so the `command` argument is modelled as a
sum of the shapes the guards distinguish (a list of strings, or a plain
string).  The two external effects are explicit parameters: whether
`os.path.isdir(os.path.realpath(cwd))` holds, and how `subprocess.run` ends
(normal completion, `TimeoutExpired`, or `FileNotFoundError`). -/

/-- The `command` argument of `run_in_sandbox`: Python callers may pass a list
of strings or (erroneously) a bare string, which `isinstance(command, list)`
rejects. -/
inductive PyCommand where
  | pyList (xs : List String)
  | pyStr (s : String)
deriving Repr, DecidableEq

/-- Outcome of the `subprocess.run` call inside `run_in_sandbox`. -/
inductive SpawnOutcome where
  | completed (stdout stderr : String) (returncode : Int)
  | timedOut
  | execMissing
deriving Repr, DecidableEq

/-- Result of `run_in_sandbox`: a raised `ValueError`, or the
`(stdout, stderr, returncode)` tuple. -/
inductive SandboxResult where
  | valueError (msg : String)
  | finished (stdout stderr : String) (returncode : Int)
deriving Repr, DecidableEq

/-- A single quote character, kept out of string literals as `\x27`. -/
def sq : String := String.singleton '\x27'

/-- Python truthiness of the `command` argument (`not command`). -/
def commandTruthy : PyCommand → Bool
  | .pyList xs => !xs.isEmpty
  | .pyStr s => !s.isEmpty

/-- `not command or not isinstance(command, list)` from `run_in_sandbox`. -/
def commandRejected : PyCommand → Bool
  | .pyList xs => xs.isEmpty
  | .pyStr _ => true

/-- `command[0]` (only evaluated once the list guard has passed). -/
def commandExecutable : PyCommand → String
  | .pyList xs => xs.headD ""
  | .pyStr s => s

/-- `executable not in allowed` check of `run_in_sandbox` (membership in
`DEFAULTS["allowed_commands"]`). -/
def allowedCommand (executable : String) : Bool :=
  allowed_commands.contains executable

/-- `run_in_sandbox` from `core/sandbox.py`, paired with a flag recording
whether control reached `subprocess.run` (whether a process was spawned). -/
def run_in_sandbox (command : PyCommand) (cwdIsDir : Bool) (timeout : Option Nat)
    (outcome : SpawnOutcome) : SandboxResult × Bool :=
  let timeoutEff := timeout.getD sandbox_timeout
  if commandRejected command then
    (.valueError "Command must be a non-empty list of strings", false)
  else
    let executable := commandExecutable command
    if !allowedCommand executable then
      (.valueError (s!"Command {sq}{executable}{sq} not in allowlist: " ++ toString allowed_commands),
        false)
    else if !cwdIsDir then
      (.valueError "Working directory does not exist", false)
    else
      match outcome with
      | .completed stdout stderr returncode => (.finished stdout stderr returncode, true)
      | .timedOut => (.finished "" s!"Command timed out after {timeoutEff}s" (-1), true)
      | .execMissing => (.finished "" s!"Command not found: {executable}" (-1), true)

/-- Result is a raised `ValueError`. -/
def isValueError : SandboxResult → Bool
  | .valueError _ => true
  | .finished _ _ _ => false

/-- Claim C8: `run_in_sandbox` raises a usage error (`ValueError`), without
spawning any process, exactly when the command is empty or not a list, the
program name is not in the allow-list, or the working directory does not
exist; an allow-listed command that times out or whose executable is missing
instead yields exit code `-1` with a descriptive (non-empty) diagnostic in
stderr, not an exception. -/
theorem sandbox_error_contract (command : PyCommand) (cwdIsDir : Bool)
    (timeout : Option Nat) (outcome : SpawnOutcome) :
    (isValueError (run_in_sandbox command cwdIsDir timeout outcome).1 = true ↔
        (commandRejected command = true ∨
          allowedCommand (commandExecutable command) = false ∨
          cwdIsDir = false)) ∧
    (isValueError (run_in_sandbox command cwdIsDir timeout outcome).1 = true →
        (run_in_sandbox command cwdIsDir timeout outcome).2 = false) ∧
    (commandRejected command = false →
      allowedCommand (commandExecutable command) = true →
      cwdIsDir = true →
      (outcome = .timedOut →
          run_in_sandbox command cwdIsDir timeout outcome =
            (.finished "" s!"Command timed out after {timeout.getD sandbox_timeout}s" (-1), true) ∧
            s!"Command timed out after {timeout.getD sandbox_timeout}s" ≠ "") ∧
        (outcome = .execMissing →
          run_in_sandbox command cwdIsDir timeout outcome =
            (.finished "" s!"Command not found: {commandExecutable command}" (-1), true) ∧
            s!"Command not found: {commandExecutable command}" ≠ "")) := by
  have hne1 : s!"Command timed out after {timeout.getD sandbox_timeout}s" ≠ "" := by
    intro h
    have hlen := congrArg String.length h
    rw [String.length_append, String.length_append] at hlen
    have e1 : (toString "Command timed out after ").length = 24 := rfl
    have e2 : (toString "s").length = 1 := rfl
    have e3 : ("" : String).length = 0 := rfl
    rw [e1, e2, e3] at hlen
    omega
  have hne2 : s!"Command not found: {commandExecutable command}" ≠ "" := by
    intro h
    have hlen := congrArg String.length h
    rw [String.length_append, String.length_append] at hlen
    have e1 : (toString "Command not found: ").length = 19 := rfl
    have e2 : (toString "").length = 0 := rfl
    have e3 : ("" : String).length = 0 := rfl
    rw [e1, e2, e3] at hlen
    omega
  unfold run_in_sandbox
  refine ⟨?_, ?_, ?_⟩
  · by_cases h1 : commandRejected command = true
    · simp [h1, isValueError]
    · simp only [Bool.not_eq_true] at h1
      by_cases h2 : allowedCommand (commandExecutable command) = true
      · by_cases h3 : cwdIsDir = true
        · cases outcome <;> simp [h1, h2, h3, isValueError]
        · simp only [Bool.not_eq_true] at h3
          simp [h1, h2, h3, isValueError]
      · simp only [Bool.not_eq_true] at h2
        simp [h1, h2, isValueError]
  · by_cases h1 : commandRejected command = true
    · simp [h1, isValueError]
    · simp only [Bool.not_eq_true] at h1
      by_cases h2 : allowedCommand (commandExecutable command) = true
      · by_cases h3 : cwdIsDir = true
        · cases outcome <;> simp [h1, h2, h3, isValueError]
        · simp only [Bool.not_eq_true] at h3
          simp [h1, h2, h3, isValueError]
      · simp only [Bool.not_eq_true] at h2
        simp [h1, h2, isValueError]
  · intro h1 h2 h3
    refine ⟨?_, ?_⟩
    · rintro rfl
      exact ⟨by simp [h1, h2, h3], hne1⟩
    · rintro rfl
      exact ⟨by simp [h1, h2, h3], hne2⟩

/-- Claim C8 witness: evaluating the contract at concrete inputs — the
disallowed command `["rm", "-rf", "/"]` is rejected without spawning, and an
allow-listed `["flake8"]` that times out returns exit code `-1` with the
timeout diagnostic. -/
theorem sandbox_error_contract_witness :
    (isValueError (run_in_sandbox (.pyList ["rm", "-rf", "/"]) true none .timedOut).1 = true ∧
      (run_in_sandbox (.pyList ["rm", "-rf", "/"]) true none .timedOut).2 = false) ∧
    run_in_sandbox (.pyList ["flake8"]) true none .timedOut =
      (.finished "" "Command timed out after 30s" (-1), true) := by
  refine ⟨⟨?_, ?_⟩, ?_⟩
  · exact (sandbox_error_contract (.pyList ["rm", "-rf", "/"]) true none .timedOut).1.mpr
      (Or.inr (Or.inl (by decide)))
  · exact (sandbox_error_contract (.pyList ["rm", "-rf", "/"]) true none .timedOut).2.1
      ((sandbox_error_contract (.pyList ["rm", "-rf", "/"]) true none .timedOut).1.mpr
        (Or.inr (Or.inl (by decide))))
  · have h := (((sandbox_error_contract (.pyList ["flake8"]) true none .timedOut).2.2
      (by decide) (by decide) rfl).1 rfl).1
    simpa using h

/-! ### Pattern-matching primitives

The rule table in `config/rules.py` is a list of compiled regular
expressions.  Each pattern is transliterated into an executable recognizer
over `List Char`; `pattern.search` becomes a scan over all start positions.
Character classes follow Python `re` on ASCII input (`\s`, `\w`); parenthesized
constructs needing backtracking (`.*`, `[^x]*`, optional letters,
alternations) are expanded into explicit search loops so that a position
matches exactly when the Python pattern matches there. -/

/-- Python `\s` (ASCII range). -/
def isPySpace (c : Char) : Bool :=
  c == ' ' || c == '\t' || c == '\n' || c == '\r' || c == '\x0b' || c == '\x0c'

/-- Python `\w` (ASCII range). -/
def isPyWord (c : Char) : Bool :=
  c.isAlphanum || c == '_'

/-- The character class `["']`. -/
def isQuoteCh (c : Char) : Bool :=
  c == '"' || c == '\x27'

/-- Consume an exact literal, case-sensitively; returns the rest. -/
def eatStr : List Char → List Char → Option (List Char)
  | [], s => some s
  | _ :: _, [] => none
  | p :: ps, c :: cs => if p == c then eatStr ps cs else none

/-- Consume an exact literal under `re.IGNORECASE`. -/
def eatStrCI : List Char → List Char → Option (List Char)
  | [], s => some s
  | _ :: _, [] => none
  | p :: ps, c :: cs => if p.toLower == c.toLower then eatStrCI ps cs else none

/-- `\s*` (greedy; each use site is followed by a token that cannot match a
space, so maximal munch coincides with the backtracking semantics). -/
def eatSpaces (s : List Char) : List Char := s.dropWhile isPySpace

/-- A single character satisfying `p`. -/
def eatIf (p : Char → Bool) : List Char → Option (List Char)
  | c :: cs => if p c then some cs else none
  | [] => none

/-- Pipeline step: literal, case-sensitive. -/
def thenStrCS (pat : String) (r : Option (List Char)) : Option (List Char) :=
  r.bind (eatStr pat.data)

/-- Pipeline step: literal, case-insensitive. -/
def thenStrCI (pat : String) (r : Option (List Char)) : Option (List Char) :=
  r.bind (eatStrCI pat.data)

/-- Pipeline step: `\s*`. -/
def thenSpaces (r : Option (List Char)) : Option (List Char) :=
  r.map eatSpaces

/-- Pipeline step: `\s+`. -/
def thenSpaces1 (r : Option (List Char)) : Option (List Char) :=
  r.bind fun s =>
    match s with
    | c :: cs => if isPySpace c then some (eatSpaces cs) else none
    | [] => none

/-- Pipeline step: one fixed character. -/
def thenCh (x : Char) (r : Option (List Char)) : Option (List Char) :=
  r.bind (eatIf (· == x))

/-- Pipeline step: `["']`. -/
def thenQuote (r : Option (List Char)) : Option (List Char) :=
  r.bind (eatIf isQuoteCh)

/-- Pipeline step: `["'][^"']+["']` (the greedy body class cannot match the
closing quote, so maximal munch is exact). -/
def thenQuotedNonEmpty (r : Option (List Char)) : Option (List Char) :=
  r.bind fun s =>
    (eatIf isQuoteCh s).bind fun r1 =>
      let body := r1.takeWhile (fun c => !isQuoteCh c)
      if body.isEmpty then none
      else eatIf isQuoteCh (r1.drop body.length)

/-- Pipeline step: `["'][^"']*["']`. -/
def thenQuotedMaybeEmpty (r : Option (List Char)) : Option (List Char) :=
  r.bind fun s =>
    (eatIf isQuoteCh s).bind fun r1 =>
      let body := r1.takeWhile (fun c => !isQuoteCh c)
      eatIf isQuoteCh (r1.drop body.length)

/-- The pipeline matched. -/
def matched (r : Option (List Char)) : Bool := r.isSome

/-- `\b` to the left of a word character (`none` is start of string). -/
def boundaryBefore : Option Char → Bool
  | none => true
  | some c => !isPyWord c

/-- `\b` to the right of a word character (empty rest is end of string). -/
def boundaryAfter : List Char → Bool
  | [] => true
  | c :: _ => !isPyWord c

/-- Pipeline must end at a `\b` after a word character. -/
def thenBoundary (r : Option (List Char)) : Bool :=
  match r with
  | some rest => boundaryAfter rest
  | none => false

/-- `.*` followed by continuation `k`: some split whose skipped prefix is
newline-free (Python `.` does not match a newline). -/
def dotStarThen (k : List Char → Bool) : List Char → Bool
  | [] => k []
  | c :: cs => k (c :: cs) || (c != '\n' && dotStarThen k cs)

/-- `.*` followed by a continuation that inspects the preceding character
(for a `\b` inside the continuation); `prev` is the character before the
current position in the subject string. -/
def dotStarThenB (k : Option Char → List Char → Bool) : Option Char → List Char → Bool
  | prev, [] => k prev []
  | prev, c :: cs => k prev (c :: cs) || (c != '\n' && dotStarThenB k (some c) cs)

/-- `[^x]*` followed by continuation `k`. -/
def skipNotThen (x : Char) (k : List Char → Bool) : List Char → Bool
  | [] => k []
  | c :: cs => k (c :: cs) || (c != x && skipNotThen x k cs)

/-- `[^x]+` followed by continuation `k` (at least one skipped character). -/
def skipNotThen1 (x : Char) (k : List Char → Bool) : List Char → Bool
  | [] => false
  | c :: cs => c != x && skipNotThen x k cs

/-- `pattern.search`: try a position-anchored matcher at every position,
threading the preceding character for lookbehind and `\b` tests. -/
def searchFrom (p : Option Char → List Char → Bool) : Option Char → List Char → Bool
  | prev, [] => p prev []
  | prev, c :: cs => p prev (c :: cs) || searchFrom p (some c) cs

/-- `pattern.search` over a string. -/
def ruleSearch (p : Option Char → List Char → Bool) (s : String) : Bool :=
  searchFrom p none s.data

/-- Case-insensitive substring containment (`re.search` of a plain word). -/
def containsCI (pat : String) (s : List Char) : Bool :=
  searchFrom (fun _ r => (eatStrCI pat.data r).isSome) none s

/-! ### The `SECURITY_PATTERNS` matchers (`config/rules.py`, in table order)

Each `...At` definition recognizes the corresponding compiled pattern at one
position (given the preceding character); `ruleSearch` lifts it to
`pattern.search`. -/

/-- `(?:password|secret|api_key|token)\s*=\s*["'][^"']+["']`, IGNORECASE. -/
def patHardcodedSecretAt (_prev : Option Char) (s : List Char) : Bool :=
  ["password", "secret", "api_key", "token"].any fun w =>
    matched (some s |> thenStrCI w |> thenSpaces |> thenCh '=' |> thenSpaces |> thenQuotedNonEmpty)

/-- `\bdebug\s*=\s*True\b`, IGNORECASE. -/
def patDebugTrueAt (prev : Option Char) (s : List Char) : Bool :=
  boundaryBefore prev &&
    thenBoundary (some s |> thenStrCI "debug" |> thenSpaces |> thenCh '=' |> thenSpaces |> thenStrCI "True")

/-- `\beval\s*\(`. -/
def patEvalAt (prev : Option Char) (s : List Char) : Bool :=
  boundaryBefore prev && matched (some s |> thenStrCS "eval" |> thenSpaces |> thenCh '(')

/-- `\bexec\s*\(`. -/
def patExecAt (prev : Option Char) (s : List Char) : Bool :=
  boundaryBefore prev && matched (some s |> thenStrCS "exec" |> thenSpaces |> thenCh '(')

/-- `\bos\.system\s*\(`. -/
def patOsSystemAt (prev : Option Char) (s : List Char) : Bool :=
  boundaryBefore prev && matched (some s |> thenStrCS "os.system" |> thenSpaces |> thenCh '(')

/-- `["']0\.0\.0\.0["']` (the two quotes are independent). -/
def patBindAllAt (_prev : Option Char) (s : List Char) : Bool :=
  matched (some s |> thenQuote |> thenStrCS "0.0.0.0" |> thenQuote)

/-- `\bSECRET_KEY\s*=\s*["'][^"']+["']`, IGNORECASE. -/
def patSecretKeyAt (prev : Option Char) (s : List Char) : Bool :=
  boundaryBefore prev &&
    matched (some s |> thenStrCI "SECRET_KEY" |> thenSpaces |> thenCh '=' |> thenSpaces |> thenQuotedNonEmpty)

/-- `execute\s*\(\s*["'].*%s`. -/
def patSqlPercentAt (_prev : Option Char) (s : List Char) : Bool :=
  match some s |> thenStrCS "execute" |> thenSpaces |> thenCh '(' |> thenSpaces |> thenQuote with
  | none => false
  | some r => dotStarThen (fun t => (eatStr "%s".data t).isSome) r

/-- `execute\s*\(\s*f["']`. -/
def patSqlFstringAt (_prev : Option Char) (s : List Char) : Bool :=
  matched (some s |> thenStrCS "execute" |> thenSpaces |> thenCh '(' |> thenSpaces |> thenCh 'f' |> thenQuote)

/-- `\bpickle\.loads?\s*\(` (the optional `s` backtracks, hence the OR). -/
def patPickleLoadAt (prev : Option Char) (s : List Char) : Bool :=
  boundaryBefore prev &&
    (matched (some s |> thenStrCS "pickle.load" |> thenCh 's' |> thenSpaces |> thenCh '(') ||
      matched (some s |> thenStrCS "pickle.load" |> thenSpaces |> thenCh '('))

/-- `\bshell\s*=\s*True\b` (case-sensitive). -/
def patShellTrueAt (prev : Option Char) (s : List Char) : Bool :=
  boundaryBefore prev &&
    thenBoundary (some s |> thenStrCS "shell" |> thenSpaces |> thenCh '=' |> thenSpaces |> thenStrCS "True")

/-- `\bhashlib\.(md5|sha1)\s*\(`. -/
def patWeakHashAt (prev : Option Char) (s : List Char) : Bool :=
  boundaryBefore prev &&
    (["md5", "sha1"].any fun w =>
      matched (some s |> thenStrCS "hashlib." |> thenStrCS w |> thenSpaces |> thenCh '('))

/-- `\bredirect\s*\(\s*request\.(args|form|values|json)\b`. -/
def patOpenRedirectAt (prev : Option Char) (s : List Char) : Bool :=
  boundaryBefore prev &&
    (["args", "form", "values", "json"].any fun w =>
      thenBoundary (some s |> thenStrCS "redirect" |> thenSpaces |> thenCh '(' |> thenSpaces
        |> thenStrCS "request." |> thenStrCS w))

/-- `SESSION_COOKIE_HTTPONLY['"]\s*\]\s*=\s*False\b|(?<!\[)SESSION_COOKIE_HTTPONLY\s*=\s*False\b`,
IGNORECASE. -/
def patHttponlyFalseAt (prev : Option Char) (s : List Char) : Bool :=
  thenBoundary (some s |> thenStrCI "SESSION_COOKIE_HTTPONLY" |> thenQuote |> thenSpaces
      |> thenCh ']' |> thenSpaces |> thenCh '=' |> thenSpaces |> thenStrCI "False") ||
    ((match prev with | some c => c != '[' | none => true) &&
      thenBoundary (some s |> thenStrCI "SESSION_COOKIE_HTTPONLY" |> thenSpaces |> thenCh '='
        |> thenSpaces |> thenStrCI "False"))

/-- `SESSION_COOKIE_SECURE['"]\s*\]\s*=\s*False\b|(?<!\[)SESSION_COOKIE_SECURE\s*=\s*False\b`,
IGNORECASE. -/
def patCookieSecureFalseAt (prev : Option Char) (s : List Char) : Bool :=
  thenBoundary (some s |> thenStrCI "SESSION_COOKIE_SECURE" |> thenQuote |> thenSpaces
      |> thenCh ']' |> thenSpaces |> thenCh '=' |> thenSpaces |> thenStrCI "False") ||
    ((match prev with | some c => c != '[' | none => true) &&
      thenBoundary (some s |> thenStrCI "SESSION_COOKIE_SECURE" |> thenSpaces |> thenCh '='
        |> thenSpaces |> thenStrCI "False"))

/-- `execute\s*\(\s*["'].*["']\s*\.format\s*\(`. -/
def patSqlFormatAt (_prev : Option Char) (s : List Char) : Bool :=
  match some s |> thenStrCS "execute" |> thenSpaces |> thenCh '(' |> thenSpaces |> thenQuote with
  | none => false
  | some r => dotStarThen (fun t =>
      matched (some t |> thenQuote |> thenSpaces |> thenStrCS ".format" |> thenSpaces |> thenCh '(')) r

/-- `execute\s*\([^)]*["']\s*\+`. -/
def patSqlConcatAt (_prev : Option Char) (s : List Char) : Bool :=
  match some s |> thenStrCS "execute" |> thenSpaces |> thenCh '(' with
  | none => false
  | some r => skipNotThen ')' (fun t => matched (some t |> thenQuote |> thenSpaces |> thenCh '+')) r

/-- `\bimport\s+random\b`. -/
def patImportRandomAt (prev : Option Char) (s : List Char) : Bool :=
  boundaryBefore prev &&
    thenBoundary (some s |> thenStrCS "import" |> thenSpaces1 |> thenStrCS "random")

/-- `\bcursor\.(execute|executemany)\s*\(`. -/
def patCursorExecuteAt (prev : Option Char) (s : List Char) : Bool :=
  boundaryBefore prev &&
    (["execute", "executemany"].any fun w =>
      matched (some s |> thenStrCS "cursor." |> thenStrCS w |> thenSpaces |> thenCh '('))

/-- `\b(?:db\.engine|engine|connection)\.execute\s*\(`. -/
def patEngineExecuteAt (prev : Option Char) (s : List Char) : Bool :=
  boundaryBefore prev &&
    (["db.engine", "engine", "connection"].any fun w =>
      matched (some s |> thenStrCS w |> thenStrCS ".execute" |> thenSpaces |> thenCh '('))

/-- `\bhashlib\.sha256\s*\(`. -/
def patSha256At (prev : Option Char) (s : List Char) : Bool :=
  boundaryBefore prev && matched (some s |> thenStrCS "hashlib.sha256" |> thenSpaces |> thenCh '(')

/-- `await\s+request\.(json|body)\s*\(\)`. -/
def patAwaitBodyAt (_prev : Option Char) (s : List Char) : Bool :=
  ["json", "body"].any fun w =>
    matched (some s |> thenStrCS "await" |> thenSpaces1 |> thenStrCS "request." |> thenStrCS w
      |> thenSpaces |> thenCh '(' |> thenCh ')')

/-- Word list of the sensitive-log pattern. -/
def sensitiveLogWords : List String :=
  ["password", "passwd", "secret", "token", "api_key", "credit_card", "ssn", "cvv"]

/-- `(?:logging|logger)\s*\.\s*(?:debug|info|warning|error|critical)\s*\(`
followed by `.*\b(?:password|passwd|secret|token|api_key|credit_card|ssn|cvv)\b`,
IGNORECASE. -/
def patLogSensitiveAt (_prev : Option Char) (s : List Char) : Bool :=
  ["logging", "logger"].any fun base =>
    ["debug", "info", "warning", "error", "critical"].any fun lvl =>
      match some s |> thenStrCI base |> thenSpaces |> thenCh '.' |> thenSpaces |> thenStrCI lvl
          |> thenSpaces |> thenCh '(' with
      | none => false
      | some r =>
        dotStarThenB (fun prevc t =>
          boundaryBefore prevc &&
            sensitiveLogWords.any fun w => thenBoundary (some t |> thenStrCI w)) (some '(') r

/-- `\bprint\s*\(.*\b(?:password|passwd|secret|api_key|token)\b`, IGNORECASE. -/
def patPrintSensitiveAt (prev : Option Char) (s : List Char) : Bool :=
  boundaryBefore prev &&
    (match some s |> thenStrCI "print" |> thenSpaces |> thenCh '(' with
     | none => false
     | some r =>
       dotStarThenB (fun prevc t =>
         boundaryBefore prevc &&
           (["password", "passwd", "secret", "api_key", "token"].any fun w =>
             thenBoundary (some t |> thenStrCI w))) (some '(') r)

/-- `app\.run\s*\((?!.*ssl_context)`. -/
def patAppRunAt (_prev : Option Char) (s : List Char) : Bool :=
  match some s |> thenStrCS "app.run" |> thenSpaces |> thenCh '(' with
  | none => false
  | some r => !dotStarThen (fun t => (eatStr "ssl_context".data t).isSome) r

/-- `\bopen\s*\(\s*request\.(args|form|values|json|files)`, IGNORECASE. -/
def patOpenUserPathAt (prev : Option Char) (s : List Char) : Bool :=
  boundaryBefore prev &&
    (["args", "form", "values", "json", "files"].any fun w =>
      matched (some s |> thenStrCI "open" |> thenSpaces |> thenCh '(' |> thenSpaces
        |> thenStrCI "request." |> thenStrCI w))

/-- `\bsend_file\s*\(\s*request\.(args|form|values|json)`, IGNORECASE. -/
def patSendFileAt (prev : Option Char) (s : List Char) : Bool :=
  boundaryBefore prev &&
    (["args", "form", "values", "json"].any fun w =>
      matched (some s |> thenStrCI "send_file" |> thenSpaces |> thenCh '(' |> thenSpaces
        |> thenStrCI "request." |> thenStrCI w))

/-! ### The `HTML_SECURITY_PATTERNS` matchers (`config/rules.py`) -/

/-- `\|\s*safe\b`. -/
def patSafeFilterAt (_prev : Option Char) (s : List Char) : Bool :=
  thenBoundary (some s |> thenCh '|' |> thenSpaces |> thenStrCS "safe")

/-- `\bMarkup\s*\(`. -/
def patMarkupAt (prev : Option Char) (s : List Char) : Bool :=
  boundaryBefore prev && matched (some s |> thenStrCS "Markup" |> thenSpaces |> thenCh '(')

/-- `src\s*=\s*["']http://`, IGNORECASE. -/
def patSrcHttpAt (_prev : Option Char) (s : List Char) : Bool :=
  matched (some s |> thenStrCI "src" |> thenSpaces |> thenCh '=' |> thenSpaces |> thenQuote
    |> thenStrCI "http://")

/-- `href\s*=\s*["']http://`, IGNORECASE. -/
def patHrefHttpAt (_prev : Option Char) (s : List Char) : Bool :=
  matched (some s |> thenStrCI "href" |> thenSpaces |> thenCh '=' |> thenSpaces |> thenQuote
    |> thenStrCI "http://")

/-- `javascript\s*:`, IGNORECASE. -/
def patJsUriAt (_prev : Option Char) (s : List Char) : Bool :=
  matched (some s |> thenStrCI "javascript" |> thenSpaces |> thenCh ':')

/-- `<\s*script[^>]+src\s*=\s*["'][^"']*["'][^>]*>`, IGNORECASE (the trailing
`[^>]*>` is maximal-munch exact; the inner `[^>]+` backtracks). -/
def patExtScriptAt (_prev : Option Char) (s : List Char) : Bool :=
  match some s |> thenCh '<' |> thenSpaces |> thenStrCI "script" with
  | none => false
  | some r =>
    skipNotThen1 '>' (fun t =>
      match some t |> thenStrCI "src" |> thenSpaces |> thenCh '=' |> thenSpaces
          |> thenQuotedMaybeEmpty with
      | none => false
      | some r2 =>
        let sk := r2.takeWhile (fun c => c != '>')
        matched (thenCh '>' (some (r2.drop sk.length)))) r

/-! ### CSRF whole-file matchers (`agents/security.py::_check_csrf`) -/

/-- `<\s*form\b[^>]+method\s*=\s*["']post["']`, IGNORECASE — a POST-method
form tag (the `\b` after `form` checks the next character). -/
def patPostFormAt (_prev : Option Char) (s : List Char) : Bool :=
  match some s |> thenCh '<' |> thenSpaces |> thenStrCI "form" with
  | none => false
  | some r =>
    boundaryAfter r &&
      skipNotThen1 '>' (fun t =>
        matched (some t |> thenStrCI "method" |> thenSpaces |> thenCh '=' |> thenSpaces
          |> thenQuote |> thenStrCI "post" |> thenQuote)) r

/-- `re.search(r"<\s*form\b[^>]+method\s*=\s*[\"']post[\"']", content, re.IGNORECASE)`. -/
def hasPostForm (content : String) : Bool :=
  ruleSearch patPostFormAt content

/-- `re.search(r"csrf|hidden_tag", content, re.IGNORECASE)`. -/
def hasCsrfMarker (content : String) : Bool :=
  containsCI "csrf" content.data || containsCI "hidden_tag" content.data

/-! ### Auto-fix machinery (`fix_from.sub(fix_to, content)`)

`re.sub` finds non-overlapping matches left to right in the original string
(lookarounds and `\b` read the original context) and splices the replacement.
A fix matcher reports, at one position, the replacement text, the last
character of the matched span (the left context for subsequent positions)
and the rest of the input after the match. -/

/-- Positional matcher of a fix pattern; see the section comment. -/
abbrev FixMatcher := Option Char → List Char → Option (List Char × Option Char × List Char)

/-- The scan loop of `re.sub` (fuel is the input length plus one; every match
consumes at least one character, so the fuel never runs out). -/
def subFixGo (tryAt : FixMatcher) : Nat → Option Char → List Char → List Char
  | 0, _, s => s
  | _ + 1, _, [] => []
  | fuel + 1, prev, c :: cs =>
    match tryAt prev (c :: cs) with
    | some (rep, lastc, rest) => rep ++ subFixGo tryAt fuel lastc rest
    | none => c :: subFixGo tryAt fuel (some c) cs

/-- `fix_from.sub(fix_to, content)`. -/
def subFix (tryAt : FixMatcher) (s : String) : String :=
  ⟨subFixGo tryAt (s.data.length + 1) none s.data⟩

/-- `fix_from.search(content)`. -/
def searchFixFrom (m : FixMatcher) : Option Char → List Char → Bool
  | prev, [] => (m prev []).isSome
  | prev, c :: cs => (m prev (c :: cs)).isSome || searchFixFrom m (some c) cs

/-- `fix_from.search` over a string. -/
def fixSearch (m : FixMatcher) (s : String) : Bool :=
  searchFixFrom m none s.data

/-- Fix matcher of the debug rule: `\bdebug\s*=\s*True\b` (IGNORECASE)
replaced by `debug=False`. -/
def debugFixAt : FixMatcher := fun prev s =>
  if !boundaryBefore prev then none
  else
    match some s |> thenStrCI "debug" |> thenSpaces |> thenCh '=' |> thenSpaces with
    | none => none
    | some r =>
      match eatStrCI "True".data r with
      | none => none
      | some rest =>
        if boundaryAfter rest then some ("debug=False".data, r.get? 3, rest) else none

/-- Fix matcher of the bind rule: `(['"])0\.0\.0\.0\1` (matching quotes via
the backreference) replaced by `'127.0.0.1'`. -/
def bindFixAt : FixMatcher := fun _prev s =>
  match s with
  | q :: rest =>
    if isQuoteCh q then
      match eatStr "0.0.0.0".data rest with
      | some (c :: rest2) => if c == q then some ("\x27127.0.0.1\x27".data, some q, rest2) else none
      | _ => none
    else none
  | [] => none

/-- Fix matcher of the session-cookie rule:
`(SESSION_COOKIE_HTTPONLY['"]\s*\]\s*=\s*)False\b` (IGNORECASE) replaced by
`\g<1>True` — the captured group is reproduced verbatim. -/
def httponlyFixAt : FixMatcher := fun _prev s =>
  match some s |> thenStrCI "SESSION_COOKIE_HTTPONLY" |> thenQuote |> thenSpaces |> thenCh ']'
      |> thenSpaces |> thenCh '=' |> thenSpaces with
  | none => none
  | some r =>
    match eatStrCI "False".data r with
    | none => none
    | some rest =>
      if boundaryAfter rest then
        some (s.take (s.length - r.length) ++ "True".data, r.get? 4, rest)
      else none

/-- `auto_fix_from`/`auto_fix_to` of a rule, as a search and a substitution. -/
structure AutoFix where
  search : String → Bool
  sub : String → String

/-- One entry of `SECURITY_PATTERNS`/`HTML_SECURITY_PATTERNS`:
`(pattern_regex, severity, message, suggestion, auto_fix_from, auto_fix_to)`,
with the compiled regex embedded as its `search` predicate and the two
auto-fix fields fused into one optional `AutoFix` (in the table they are
always both set or both `None`). -/
structure SecurityRule where
  pattern : String → Bool
  severity : String
  message : String
  suggestion : String
  fix : Option AutoFix

/-! ### The rule tables (`config/rules.py`), entry by entry and in order -/

/-- Hardcoded secret/credential rule. -/
def ruleHardcodedSecret : SecurityRule :=
  { pattern := ruleSearch patHardcodedSecretAt, severity := "error",
    message := "Hardcoded secret or credential",
    suggestion := "Use environment variables: os.environ.get(\x27KEY_NAME\x27)", fix := none }

/-- Debug-mode rule (with auto-fix `debug=True → debug=False`). -/
def ruleDebugTrue : SecurityRule :=
  { pattern := ruleSearch patDebugTrueAt, severity := "warning",
    message := "Debug mode enabled",
    suggestion := "Set debug=False for production or use an environment variable",
    fix := some { search := fixSearch debugFixAt, sub := subFix debugFixAt } }

/-- `eval()` rule. -/
def ruleEval : SecurityRule :=
  { pattern := ruleSearch patEvalAt, severity := "error",
    message := "Use of eval() is unsafe",
    suggestion := "Replace eval() with a safe alternative (ast.literal_eval, json.loads, etc.)",
    fix := none }

/-- `exec()` rule. -/
def ruleExec : SecurityRule :=
  { pattern := ruleSearch patExecAt, severity := "error",
    message := "Use of exec() is unsafe",
    suggestion := "Avoid exec(); use explicit function calls instead", fix := none }

/-- `os.system()` rule. -/
def ruleOsSystem : SecurityRule :=
  { pattern := ruleSearch patOsSystemAt, severity := "warning",
    message := "os.system() is vulnerable to shell injection",
    suggestion := "Use subprocess.run() with a list of arguments instead", fix := none }

/-- Wildcard-bind rule (with auto-fix `'0.0.0.0' → '127.0.0.1'`). -/
def ruleBindAll : SecurityRule :=
  { pattern := ruleSearch patBindAllAt, severity := "warning",
    message := "Binding to 0.0.0.0 exposes service to all interfaces",
    suggestion := "Bind to 127.0.0.1 for local development",
    fix := some { search := fixSearch bindFixAt, sub := subFix bindFixAt } }

/-- Hardcoded `SECRET_KEY` rule. -/
def ruleSecretKey : SecurityRule :=
  { pattern := ruleSearch patSecretKeyAt, severity := "error",
    message := "Hardcoded SECRET_KEY",
    suggestion := "Use os.environ.get(\x27SECRET_KEY\x27) or generate at runtime with os.urandom()",
    fix := none }

/-- SQL `%s` string-formatting rule. -/
def ruleSqlPercent : SecurityRule :=
  { pattern := ruleSearch patSqlPercentAt, severity := "error",
    message := "Possible SQL injection via string formatting",
    suggestion := "Use parameterized queries with ? or %s placeholders", fix := none }

/-- SQL f-string rule. -/
def ruleSqlFstring : SecurityRule :=
  { pattern := ruleSearch patSqlFstringAt, severity := "error",
    message := "Possible SQL injection via f-string",
    suggestion := "Use parameterized queries instead of f-strings in SQL", fix := none }

/-- `pickle.load` rule. -/
def rulePickleLoad : SecurityRule :=
  { pattern := ruleSearch patPickleLoadAt, severity := "warning",
    message := "pickle.load() can execute arbitrary code on untrusted data",
    suggestion := "Use json.loads() or validate input source before unpickling", fix := none }

/-- `shell=True` rule. -/
def ruleShellTrue : SecurityRule :=
  { pattern := ruleSearch patShellTrueAt, severity := "error",
    message := "shell=True in subprocess is vulnerable to command injection",
    suggestion := "Use shell=False and pass arguments as a list: subprocess.run([\x27cmd\x27, \x27arg\x27])",
    fix := none }

/-- MD5/SHA1 rule. -/
def ruleWeakHash : SecurityRule :=
  { pattern := ruleSearch patWeakHashAt, severity := "error",
    message := "MD5/SHA1 are cryptographically broken — never use for passwords or security tokens",
    suggestion := "Use bcrypt or werkzeug.security.generate_password_hash() for passwords",
    fix := none }

/-- Open-redirect rule. -/
def ruleOpenRedirect : SecurityRule :=
  { pattern := ruleSearch patOpenRedirectAt, severity := "error",
    message := "Potential open redirect — redirect destination is user-controlled",
    suggestion := "Validate the URL against an allowlist before redirecting", fix := none }

/-- `SESSION_COOKIE_HTTPONLY=False` rule (with auto-fix of the dict-subscript
assignment form only). -/
def ruleHttponlyFalse : SecurityRule :=
  { pattern := ruleSearch patHttponlyFalseAt, severity := "error",
    message := "SESSION_COOKIE_HTTPONLY=False allows JavaScript to read the session cookie (XSS risk)",
    suggestion := "Set SESSION_COOKIE_HTTPONLY=True",
    fix := some { search := fixSearch httponlyFixAt, sub := subFix httponlyFixAt } }

/-- `SESSION_COOKIE_SECURE=False` rule. -/
def ruleCookieSecureFalse : SecurityRule :=
  { pattern := ruleSearch patCookieSecureFalseAt, severity := "warning",
    message := "SESSION_COOKIE_SECURE=False sends session cookies over plain HTTP",
    suggestion := "Set SESSION_COOKIE_SECURE=True for any internet-facing deployment", fix := none }

/-- SQL `.format()` rule. -/
def ruleSqlFormat : SecurityRule :=
  { pattern := ruleSearch patSqlFormatAt, severity := "error",
    message := "SQL injection risk — .format() used to build a query string",
    suggestion := "Use parameterized queries: cursor.execute(\x27SELECT ... WHERE id=?\x27, (val,))",
    fix := none }

/-- SQL string-concatenation rule. -/
def ruleSqlConcat : SecurityRule :=
  { pattern := ruleSearch patSqlConcatAt, severity := "error",
    message := "SQL injection risk — string concatenation used to build a query",
    suggestion := "Use parameterized queries: cursor.execute(\x27SELECT ... WHERE id=?\x27, (val,))",
    fix := none }

/-- `import random` rule. -/
def ruleImportRandom : SecurityRule :=
  { pattern := ruleSearch patImportRandomAt, severity := "warning",
    message := "random module is not cryptographically secure — do not use for tokens, keys, or passwords",
    suggestion := "Use the secrets module for security-sensitive random values: secrets.token_urlsafe(32)",
    fix := none }

/-- Raw SQL cursor rule. -/
def ruleCursorExecute : SecurityRule :=
  { pattern := ruleSearch patCursorExecuteAt, severity := "warning",
    message := "Raw SQL cursor used — prefer SQLAlchemy ORM to eliminate injection risk and improve safety",
    suggestion := "Use SQLAlchemy ORM: db.session.query(Model).filter_by(...) or Model.query.all()",
    fix := none }

/-- Raw engine/connection execute rule. -/
def ruleEngineExecute : SecurityRule :=
  { pattern := ruleSearch patEngineExecuteAt, severity := "warning",
    message := "Raw SQLAlchemy engine/connection execute bypasses ORM safety — use session queries instead",
    suggestion := "Use db.session.execute() with text() and bound parameters, or use ORM model queries",
    fix := none }

/-- Bare SHA-256 rule. -/
def ruleSha256 : SecurityRule :=
  { pattern := ruleSearch patSha256At, severity := "warning",
    message := "SHA-256 alone is not safe for password hashing (no salt, no iterations)",
    suggestion := "Use passlib with bcrypt or argon2: from passlib.hash import bcrypt; bcrypt.hash(password)",
    fix := none }

/-- FastAPI raw-body rule. -/
def ruleAwaitBody : SecurityRule :=
  { pattern := ruleSearch patAwaitBodyAt, severity := "error",
    message := "FastAPI: reading raw request body bypasses Pydantic validation",
    suggestion := "Define a Pydantic BaseModel and declare it as a route parameter — FastAPI validates automatically",
    fix := none }

/-- Sensitive-data-in-logs rule. -/
def ruleLogSensitive : SecurityRule :=
  { pattern := ruleSearch patLogSensitiveAt, severity := "error",
    message := "Sensitive field being written to logs — will be exposed in log files and monitoring systems",
    suggestion := "Remove sensitive fields from log statements; log only non-sensitive identifiers (e.g. user_id)",
    fix := none }

/-- Sensitive-data-in-print rule. -/
def rulePrintSensitive : SecurityRule :=
  { pattern := ruleSearch patPrintSensitiveAt, severity := "warning",
    message := "Sensitive field in print() statement — remove before production",
    suggestion := "Remove debug print statements that include passwords, secrets, or tokens",
    fix := none }

/-- `app.run()` without TLS rule. -/
def ruleAppRun : SecurityRule :=
  { pattern := ruleSearch patAppRunAt, severity := "warning",
    message := "Flask app.run() without ssl_context — traffic is unencrypted in development",
    suggestion := "Add ssl_context=\x27adhoc\x27 for dev HTTPS, or deploy behind a TLS-terminating proxy in production",
    fix := none }

/-- `open()` path-traversal rule. -/
def ruleOpenUserPath : SecurityRule :=
  { pattern := ruleSearch patOpenUserPathAt, severity := "error",
    message := "Path traversal risk — open() called with user-supplied path",
    suggestion := "Resolve and validate the path: safe = os.path.realpath(path); assert safe.startswith(BASE_DIR)",
    fix := none }

/-- `send_file()` path-traversal rule. -/
def ruleSendFile : SecurityRule :=
  { pattern := ruleSearch patSendFileAt, severity := "error",
    message := "Path traversal risk — send_file() called with user-supplied path",
    suggestion := "Use send_from_directory(BASE_DIR, filename) with a validated filename instead",
    fix := none }

/-- `SECURITY_PATTERNS` from `config/rules.py`, in table order. -/
def SECURITY_PATTERNS : List SecurityRule :=
  [ruleHardcodedSecret, ruleDebugTrue, ruleEval, ruleExec, ruleOsSystem, ruleBindAll,
    ruleSecretKey, ruleSqlPercent, ruleSqlFstring, rulePickleLoad, ruleShellTrue, ruleWeakHash,
    ruleOpenRedirect, ruleHttponlyFalse, ruleCookieSecureFalse, ruleSqlFormat, ruleSqlConcat,
    ruleImportRandom, ruleCursorExecute, ruleEngineExecute, ruleSha256, ruleAwaitBody,
    ruleLogSensitive, rulePrintSensitive, ruleAppRun, ruleOpenUserPath, ruleSendFile]

/-- Jinja2 `| safe` rule. -/
def ruleSafeFilter : SecurityRule :=
  { pattern := ruleSearch patSafeFilterAt, severity := "error",
    message := "Jinja2 \x27| safe\x27 disables auto-escaping — XSS risk if applied to any user-controlled value",
    suggestion := "Remove \x27| safe\x27 unless the value is 100% trusted server-side content",
    fix := none }

/-- `Markup()` rule. -/
def ruleMarkup : SecurityRule :=
  { pattern := ruleSearch patMarkupAt, severity := "warning",
    message := "Markup() marks content as safe HTML — only use on fully trusted, server-generated content",
    suggestion := "Ensure this value is never derived from user input", fix := none }

/-- HTTP `src` rule. -/
def ruleSrcHttp : SecurityRule :=
  { pattern := ruleSearch patSrcHttpAt, severity := "error",
    message := "External resource loaded over HTTP (not HTTPS) — vulnerable to man-in-the-middle attack",
    suggestion := "Use HTTPS for all external scripts, stylesheets, and resources", fix := none }

/-- HTTP `href` rule. -/
def ruleHrefHttp : SecurityRule :=
  { pattern := ruleSearch patHrefHttpAt, severity := "warning",
    message := "Link uses HTTP instead of HTTPS",
    suggestion := "Use HTTPS for all external links and resources", fix := none }

/-- `javascript:` URI rule. -/
def ruleJsUri : SecurityRule :=
  { pattern := ruleSearch patJsUriAt, severity := "error",
    message := "javascript: URI is a common XSS vector",
    suggestion := "Use event listeners (onclick, addEventListener) instead of javascript: URIs",
    fix := none }

/-- External script without SRI rule. -/
def ruleExtScript : SecurityRule :=
  { pattern := ruleSearch patExtScriptAt, severity := "warning",
    message := "External script loaded without integrity attribute (Subresource Integrity)",
    suggestion := "Add integrity=\x27sha384-...\x27 and crossorigin=\x27anonymous\x27 to external script tags",
    fix := none }

/-- `HTML_SECURITY_PATTERNS` from `config/rules.py`, in table order. -/
def HTML_SECURITY_PATTERNS : List SecurityRule :=
  [ruleSafeFilter, ruleMarkup, ruleSrcHttp, ruleHrefHttp, ruleJsUri, ruleExtScript]

/-- `_ALL_PATTERNS = SECURITY_PATTERNS + HTML_SECURITY_PATTERNS`
(`agents/security.py`). -/
def ALL_PATTERNS : List SecurityRule :=
  SECURITY_PATTERNS ++ HTML_SECURITY_PATTERNS

/-! ### Whole-snapshot scan (`agents/security.py::SecurityAgent.run`, static part) -/

/-- `_TEMPLATE_EXTENSIONS` from `agents/security.py`. -/
def TEMPLATE_EXTENSIONS : List String := [".html", ".jinja2", ".j2"]

/-- `_COOKIE_AUTH_STACKS` from `agents/security.py` (cookie-session stacks
that require the CSRF check). -/
def COOKIE_AUTH_STACKS : List String := ["flask"]

/-- `_JWT_AUTH_STACKS` from `agents/security.py` (token-bearer stacks). -/
def JWT_AUTH_STACKS : List String := ["fastapi"]

/-- `startswith` over character lists. -/
def startsWithChars : List Char → List Char → Bool
  | [], _ => true
  | _ :: _, [] => false
  | p :: ps, c :: cs => p == c && startsWithChars ps cs

/-- Python `str.endswith`. -/
def pyEndsWith (s suffix : String) : Bool :=
  startsWithChars suffix.data.reverse s.data.reverse

/-- `ext = "." + f.path.rsplit(".", 1)[-1] if "." in f.path else ""`. -/
def fileExt (path : String) : String :=
  if path.data.contains '.' then
    "." ++ ⟨(path.data.reverse.takeWhile (· != '.')).reverse⟩
  else ""

/-- The auto-fix pass: for each rule with both fix fields set whose
`fix_from` matches, substitute (the content evolves through the loop). -/
def applyFixes (rules : List SecurityRule) (content : String) : String :=
  rules.foldl
    (fun c r =>
      match r.fix with
      | some fx => if fx.search c then fx.sub c else c
      | none => c)
    content

/-- Python `content.split("\n")` (keeps empty pieces; `""` yields `[""]`). -/
def splitOnNl : List Char → List (List Char)
  | [] => [[]]
  | c :: cs =>
    if c == '\n' then [] :: splitOnNl cs
    else
      match splitOnNl cs with
      | l :: ls => (c :: l) :: ls
      | [] => [[c]]

/-- `content.split("\n")` over strings. -/
def pySplitNl (s : String) : List String :=
  (splitOnNl s.data).map fun l => ⟨l⟩

/-- The line-scan pass: every rule is tried on every line
(`enumerate(lines, 1)` numbers lines from 1); each match yields one Issue. -/
def scanFileLines (rules : List SecurityRule) (path content : String) : List Issue :=
  (pySplitNl content).enum.flatMap fun p =>
    rules.filterMap fun r =>
      if r.pattern p.2 then
        some { source := "security", severity := r.severity, file := path,
               line := some (p.1 + 1), message := r.message, suggestion := r.suggestion }
      else none

/-- The Issue `_check_csrf` emits. -/
def csrfIssue (path : String) : Issue :=
  { source := "security", severity := "error", file := path, line := none,
    message := "POST form found with no CSRF protection",
    suggestion := "Add \x7b\x7b form.hidden_tag() \x7d\x7d (Flask-WTF) or \x7b\x7b csrf_token() \x7d\x7d inside every POST form" }

/-- `_check_csrf` from `agents/security.py`. -/
def checkCsrf (f : FileEntry) : Option Issue :=
  if !hasPostForm f.content then none
  else if hasCsrfMarker f.content then none
  else some (csrfIssue f.path)

/-- The per-file static scan of `SecurityAgent.run`: `.py` files get the
auto-fix pass then the `SECURITY_PATTERNS` line scan; template-extension
files get the `HTML_SECURITY_PATTERNS` line scan plus, on cookie-auth
stacks, the CSRF whole-file check.  Returns the (possibly fixed) file and
its issues. -/
def staticScanFile (stack : String) (f : FileEntry) : FileEntry × List Issue :=
  if pyEndsWith f.path ".py" then
    let content := applyFixes SECURITY_PATTERNS f.content
    let f2 : FileEntry := { f with content := content }
    (f2, scanFileLines SECURITY_PATTERNS f2.path f2.content)
  else if TEMPLATE_EXTENSIONS.contains (fileExt f.path) then
    let lineIssues := scanFileLines HTML_SECURITY_PATTERNS f.path f.content
    let csrfIssues := if COOKIE_AUTH_STACKS.contains stack then (checkCsrf f).toList else []
    (f, lineIssues ++ csrfIssues)
  else (f, [])

/-- The whole-snapshot scan over `state.current_files`: per-file fix and scan,
files updated in place, issues concatenated in file order. -/
def securityStaticScan (stack : String) : List FileEntry → List FileEntry × List Issue
  | [] => ([], [])
  | f :: fs =>
    let (f2, issues) := staticScanFile stack f
    let (fs2, rest) := securityStaticScan stack fs
    (f2 :: fs2, issues ++ rest)

/-- Every issue of the line-scan pass carries the message and severity of a
rule of the scanned table, and a line number. -/
theorem scanFileLines_member {rules : List SecurityRule} {path content : String} {i : Issue}
    (h : i ∈ scanFileLines rules path content) :
    ∃ r ∈ rules, i.message = r.message ∧ i.severity = r.severity ∧ i.line ≠ none := by
  unfold scanFileLines at h
  simp only [List.mem_flatMap, List.mem_filterMap] at h
  obtain ⟨p, -, r, hr, hcond⟩ := h
  refine ⟨r, hr, ?_⟩
  by_cases hm : r.pattern p.2 = true
  · rw [if_pos hm] at hcond
    cases hcond
    exact ⟨rfl, rfl, by simp⟩
  · rw [if_neg hm] at hcond
    cases hcond

/-- No rule message of the markup table coincides with the CSRF message. -/
theorem html_rule_message_ne_csrf {r : SecurityRule} (hr : r ∈ HTML_SECURITY_PATTERNS) :
    r.message ≠ "POST form found with no CSRF protection" := by
  fin_cases hr <;> decide

/-- The line-scan part of a template file contributes no CSRF-message issue. -/
theorem scanFileLines_no_csrf {path content : String} :
    (scanFileLines HTML_SECURITY_PATTERNS path content).filter
        (fun i => i.message == "POST form found with no CSRF protection") = [] := by
  rw [List.filter_eq_nil_iff]
  intro i hi
  obtain ⟨r, hr, hmsg, -, -⟩ := scanFileLines_member hi
  simp only [beq_iff_eq, hmsg]
  exact html_rule_message_ne_csrf hr

/-- Claim C6: for a markup/template file, the whole-snapshot scan emits
exactly one file-level (`line = none`) error CSRF Issue when the stack is a
cookie-session kind, the file has a POST-method form tag and no CSRF token
marker anywhere; zero CSRF issues when a marker is present, when only
non-POST forms are present (regardless of marker), or when the stack is not
a cookie-session kind (regardless of form or marker). -/
theorem csrf_case_analysis (stack : String) (f : FileEntry)
    (hpy : pyEndsWith f.path ".py" = false)
    (hext : TEMPLATE_EXTENSIONS.contains (fileExt f.path) = true) :
    (COOKIE_AUTH_STACKS.contains stack = true → hasPostForm f.content = true →
        hasCsrfMarker f.content = false →
        (staticScanFile stack f).2.filter
            (fun i => i.message == "POST form found with no CSRF protection") =
          [csrfIssue f.path] ∧
        (csrfIssue f.path).line = none ∧ (csrfIssue f.path).severity = "error") ∧
    (hasCsrfMarker f.content = true →
        (staticScanFile stack f).2.filter
            (fun i => i.message == "POST form found with no CSRF protection") = []) ∧
    (hasPostForm f.content = false →
        (staticScanFile stack f).2.filter
            (fun i => i.message == "POST form found with no CSRF protection") = []) ∧
    (COOKIE_AUTH_STACKS.contains stack = false →
        (staticScanFile stack f).2.filter
            (fun i => i.message == "POST form found with no CSRF protection") = []) := by
  have hscan : (staticScanFile stack f).2 =
      scanFileLines HTML_SECURITY_PATTERNS f.path f.content ++
        (if COOKIE_AUTH_STACKS.contains stack then (checkCsrf f).toList else []) := by
    unfold staticScanFile
    rw [if_neg (by simp [hpy]), if_pos hext]
  refine ⟨?_, ?_, ?_, ?_⟩
  · intro hstack hform hmarker
    refine ⟨?_, rfl, rfl⟩
    rw [hscan, if_pos hstack, List.filter_append, scanFileLines_no_csrf]
    unfold checkCsrf
    rw [hform, hmarker]
    simp [csrfIssue]
  · intro hmarker
    rw [hscan, List.filter_append, scanFileLines_no_csrf]
    unfold checkCsrf
    rw [hmarker]
    by_cases hstack : COOKIE_AUTH_STACKS.contains stack = true <;>
      simp [hstack, Option.toList]
  · intro hform
    rw [hscan, List.filter_append, scanFileLines_no_csrf]
    unfold checkCsrf
    rw [hform]
    by_cases hstack : COOKIE_AUTH_STACKS.contains stack = true <;> simp [hstack]
  · intro hstack
    rw [hscan, hstack, List.filter_append, scanFileLines_no_csrf]
    simp

/-- Claim C6 witness: a flask-stack template with a POST form and no marker
yields exactly the one file-level CSRF error; with a `csrf_token()` marker it
yields none. -/
theorem csrf_case_analysis_witness :
    ((staticScanFile "flask"
        { path := "templates/form.html",
          content := "<form method=\"post\"><input name=\"email\"></form>",
          language := "html" }).2.filter
        (fun i => i.message == "POST form found with no CSRF protection") =
      [csrfIssue "templates/form.html"]) ∧
    ((staticScanFile "flask"
        { path := "templates/form2.html",
          content := "<form method=\"post\">\x7b\x7b csrf_token() \x7d\x7d</form>",
          language := "html" }).2.filter
        (fun i => i.message == "POST form found with no CSRF protection") = []) := by
  constructor
  · exact ((csrf_case_analysis "flask"
      { path := "templates/form.html",
        content := "<form method=\"post\"><input name=\"email\"></form>",
        language := "html" } (by decide) (by decide)).1 (by decide) (by decide) (by decide)).1
  · exact (csrf_case_analysis "flask"
      { path := "templates/form2.html",
        content := "<form method=\"post\">\x7b\x7b csrf_token() \x7d\x7d</form>",
        language := "html" } (by decide) (by decide)).2.1 (by decide)

/-! ### Claim C3: the auto-fix/scan gap of the session-cookie rule

`SECURITY_PATTERNS` flags both the dict-subscript form
(`app.config['SESSION_COOKIE_HTTPONLY'] = False`) and the plain assignment
(`SESSION_COOKIE_HTTPONLY = False`), but `auto_fix_from` covers only the
dict-subscript form, so on the plain assignment the fix pass leaves the
content unchanged and the scan still emits the rule's error Issue. -/

/-- The failing input of claim C3. -/
def c3File : FileEntry :=
  { path := "app.py", content := "SESSION_COOKIE_HTTPONLY = False", language := "python" }

/-- Claim C3 (code bug, evaluated at the failing input): the
session-cookie-httponly rule defines an auto-fix, yet after the whole-snapshot
auto-fix pass the content is unchanged and the scan still emits the rule's
error Issue — the rule's scan matcher still matches after the fix pass. -/
theorem httponly_autofix_gap :
    (∃ fx, ruleHttponlyFalse.fix = some fx) ∧
    (staticScanFile "flask" c3File).1.content = "SESSION_COOKIE_HTTPONLY = False" ∧
    ((staticScanFile "flask" c3File).2.filter
        (fun i => i.message == ruleHttponlyFalse.message && i.severity == "error")).length = 1 := by
  refine ⟨⟨_, rfl⟩, by decide, by decide⟩

/-! ### Claim C5: idempotence of the whole-snapshot scan -/

/-- `'0.0.0.0'0.0.0.0'` — overlapping quoted wildcard-bind addresses. -/
def c5Content : String := "\x270.0.0.0\x270.0.0.0\x27"

/-- A source file on which the single substitution pass of the bind rule
leaves a fresh `fix_from` match. -/
def c5File : FileEntry := { path := "h.py", content := c5Content, language := "python" }

/-- Claim C5 counterexample: running the whole-snapshot scan twice on
`c5File` is not idempotent — the second run changes the auto-fixed content
again (so contents are not byte-identical and the Issue sets differ). -/
theorem snapshot_scan_not_idempotent :
    ¬ ((securityStaticScan "flask" (securityStaticScan "flask" [c5File]).1).1 =
          (securityStaticScan "flask" [c5File]).1 ∧
        (securityStaticScan "flask" (securityStaticScan "flask" [c5File]).1).2 =
          (securityStaticScan "flask" [c5File]).2) := by
  intro h
  exact absurd h.1 (by decide)

/-- Characterization of the `.py` branch of the per-file scan. -/
theorem staticScanFile_py (stack : String) (f : FileEntry)
    (hpy : pyEndsWith f.path ".py" = true) :
    staticScanFile stack f =
      ({ f with content := applyFixes SECURITY_PATTERNS f.content },
        scanFileLines SECURITY_PATTERNS f.path (applyFixes SECURITY_PATTERNS f.content)) := by
  unfold staticScanFile
  rw [if_pos hpy]

/-- One file's scan is idempotent as soon as the fix pass is stable on its
output content. -/
theorem staticScanFile_idempotent (stack : String) (f : FileEntry)
    (h : applyFixes SECURITY_PATTERNS (staticScanFile stack f).1.content =
      (staticScanFile stack f).1.content) :
    staticScanFile stack (staticScanFile stack f).1 = staticScanFile stack f := by
  by_cases hpy : pyEndsWith f.path ".py" = true
  · have e1 := staticScanFile_py stack f hpy
    have hfst : (staticScanFile stack f).1 =
        { f with content := applyFixes SECURITY_PATTERNS f.content } := by rw [e1]
    have h2 : applyFixes SECURITY_PATTERNS (applyFixes SECURITY_PATTERNS f.content) =
        applyFixes SECURITY_PATTERNS f.content := by
      rw [hfst] at h
      exact h
    have e2 := staticScanFile_py stack
      ({ f with content := applyFixes SECURITY_PATTERNS f.content }) hpy
    rw [hfst, e2, e1]
    rw [show ({ f with content := applyFixes SECURITY_PATTERNS f.content } : FileEntry).content =
      applyFixes SECURITY_PATTERNS f.content from rfl]
    rw [h2]
  · have hres : (staticScanFile stack f).1 = f := by
      unfold staticScanFile
      rw [if_neg hpy]
      split <;> rfl
    rw [hres]

/-- Claim C5 (amended): running the whole-snapshot scan twice on the same
file set is idempotent — byte-identical contents and an identical Issue
set — provided the auto-fix pass is stable on the first run's output
contents (no `fix_from` pattern still effects a substitution there); the
counterexample's overlapping-quote content violates exactly this proviso. -/
theorem snapshot_scan_idempotent_of_fix_stable (stack : String) (files : List FileEntry)
    (h : ∀ f ∈ (securityStaticScan stack files).1,
      applyFixes SECURITY_PATTERNS f.content = f.content) :
    securityStaticScan stack (securityStaticScan stack files).1 =
      securityStaticScan stack files := by
  induction files with
  | nil => rfl
  | cons f fs ih =>
    have hrun : securityStaticScan stack (f :: fs) =
        ((staticScanFile stack f).1 :: (securityStaticScan stack fs).1,
          (staticScanFile stack f).2 ++ (securityStaticScan stack fs).2) := rfl
    rw [hrun] at h ⊢
    have hf : applyFixes SECURITY_PATTERNS (staticScanFile stack f).1.content =
        (staticScanFile stack f).1.content := h _ (List.mem_cons_self _ _)
    have hfs : ∀ g ∈ (securityStaticScan stack fs).1,
        applyFixes SECURITY_PATTERNS g.content = g.content := fun g hg =>
      h g (List.mem_cons_of_mem _ hg)
    have hone := staticScanFile_idempotent stack f hf
    have hrest := ih hfs
    show ((staticScanFile stack (staticScanFile stack f).1).1 ::
        (securityStaticScan stack (securityStaticScan stack fs).1).1,
        (staticScanFile stack (staticScanFile stack f).1).2 ++
          (securityStaticScan stack (securityStaticScan stack fs).1).2) = _
    rw [hone, hrest]

/-- Claim C5 witness: on a file whose only finding is auto-fixed
(`app.run(debug=True)`), the fix pass is stable on the first run's output and
the second run reproduces the first exactly. -/
theorem snapshot_scan_idempotent_witness :
    (∀ f ∈ (securityStaticScan "flask"
        [{ path := "app.py", content := "app.run(debug=True)", language := "python" }]).1,
      applyFixes SECURITY_PATTERNS f.content = f.content) ∧
    securityStaticScan "flask" (securityStaticScan "flask"
        [{ path := "app.py", content := "app.run(debug=True)", language := "python" }]).1 =
      securityStaticScan "flask"
        [{ path := "app.py", content := "app.run(debug=True)", language := "python" }] :=
  ⟨by decide,
    snapshot_scan_idempotent_of_fix_stable "flask"
      [{ path := "app.py", content := "app.run(debug=True)", language := "python" }] (by decide)⟩

/-! ### `difflib.SequenceMatcher` (no junk, `autojunk=False`)

`_scan_patch_drift` aligns the previous and current line sequences with
`difflib.SequenceMatcher(None, old_lines, new_lines, autojunk=False)` and
takes the `insert`/`replace` opcodes.  The matcher is embedded by its
documented semantics: `find_longest_match` returns the longest matching
block, ties preferring the earliest start in `a` and then in `b`;
`get_matching_blocks` recurses left and right of that block, merges adjacent
blocks and appends the `(la, lb, 0)` sentinel; `get_opcodes` walks the blocks
with a cursor. -/

/-- Length of the common prefix of two lists. -/
def commonRunLen {α : Type} [DecidableEq α] : List α → List α → Nat
  | a :: as, b :: bs => if a = b then commonRunLen as bs + 1 else 0
  | _, _ => 0

/-- Length of the matching run starting at `(i, j)` inside the windows
`[i, ahi)` × `[j, bhi)`. -/
def extLen {α : Type} [DecidableEq α] (a b : List α) (i ahi j bhi : Nat) : Nat :=
  commonRunLen ((a.drop i).take (ahi - i)) ((b.drop j).take (bhi - j))

/-- `find_longest_match` over the windows `[alo, ahi)` × `[blo, bhi)`. -/
def findLongestMatch {α : Type} [DecidableEq α] (a b : List α) (alo ahi blo bhi : Nat) :
    Nat × Nat × Nat :=
  (List.range' alo (ahi - alo)).foldl
    (fun best i =>
      (List.range' blo (bhi - blo)).foldl
        (fun best j =>
          let k := extLen a b i ahi j bhi
          if best.2.2 < k then (i, j, k) else best)
        best)
    (alo, blo, 0)

/-- The recursive block collection of `get_matching_blocks` (the fuel is a
bound on the recursion depth; each level strictly shrinks the windows). -/
def matchingBlocksGo {α : Type} [DecidableEq α] (a b : List α) :
    Nat → Nat → Nat → Nat → Nat → List (Nat × Nat × Nat)
  | 0, _, _, _, _ => []
  | fuel + 1, alo, ahi, blo, bhi =>
    let m := findLongestMatch a b alo ahi blo bhi
    if m.2.2 = 0 then []
    else
      matchingBlocksGo a b fuel alo m.1 blo m.2.1 ++ [m] ++
        matchingBlocksGo a b fuel (m.1 + m.2.2) ahi (m.2.1 + m.2.2) bhi

/-- The adjacent-block merge loop of `get_matching_blocks`. -/
def mergeAdjacentGo : Nat × Nat × Nat → List (Nat × Nat × Nat) → List (Nat × Nat × Nat)
  | cur, [] => if cur.2.2 ≠ 0 then [cur] else []
  | (i1, j1, k1), (i2, j2, k2) :: rest =>
    if i1 + k1 = i2 ∧ j1 + k1 = j2 then mergeAdjacentGo (i1, j1, k1 + k2) rest
    else (if k1 ≠ 0 then [(i1, j1, k1)] else []) ++ mergeAdjacentGo (i2, j2, k2) rest

/-- `get_matching_blocks`. -/
def getMatchingBlocks {α : Type} [DecidableEq α] (a b : List α) : List (Nat × Nat × Nat) :=
  mergeAdjacentGo (0, 0, 0)
      (matchingBlocksGo a b (a.length + b.length + 1) 0 a.length 0 b.length) ++
    [(a.length, b.length, 0)]

/-- `get_opcodes`: tags are `"replace"`, `"delete"`, `"insert"`, `"equal"`. -/
def getOpcodes {α : Type} [DecidableEq α] (a b : List α) :
    List (String × Nat × Nat × Nat × Nat) :=
  ((getMatchingBlocks a b).foldl
    (fun acc block =>
      let i := acc.2.1
      let j := acc.2.2
      let ai := block.1
      let bj := block.2.1
      let size := block.2.2
      let answer :=
        if i < ai ∧ j < bj then acc.1 ++ [("replace", i, ai, j, bj)]
        else if i < ai then acc.1 ++ [("delete", i, ai, j, bj)]
        else if j < bj then acc.1 ++ [("insert", i, ai, j, bj)]
        else acc.1
      let answer := if size ≠ 0 then answer ++ [("equal", ai, ai + size, bj, bj + size)] else answer
      (answer, ai + size, bj + size))
    ([], 0, 0)).1

/-! ### Python line splitting -/

/-- The line-boundary characters of Python `str.splitlines`. -/
def isLineBreak (c : Char) : Bool :=
  c == '\n' || c == '\r' || c == '\x0b' || c == '\x0c' ||
    c == '\x1c' || c == '\x1d' || c == '\x1e' || c == '\x85' ||
    c == '\u2028' || c == '\u2029'

/-- `str.splitlines(keepends=True)` (`\r\n` is one boundary). -/
def splitLinesKeepGo : List Char → List Char → List (List Char)
  | acc, [] => if acc.isEmpty then [] else [acc.reverse]
  | acc, '\r' :: '\n' :: rest => (acc.reverse ++ ['\r', '\n']) :: splitLinesKeepGo [] rest
  | acc, c :: rest =>
    if isLineBreak c then (acc.reverse ++ [c]) :: splitLinesKeepGo [] rest
    else splitLinesKeepGo (c :: acc) rest

/-- `content.splitlines(keepends=True)`. -/
def splitLinesKeep (s : String) : List String :=
  (splitLinesKeepGo [] s.data).map fun l => ⟨l⟩

/-- Drop one trailing line boundary (`\r\n` counts as one). -/
def stripTrailingBreak (l : List Char) : List Char :=
  match l.reverse with
  | '\n' :: '\r' :: rest => rest.reverse
  | c :: rest => if isLineBreak c then rest.reverse else l
  | [] => l

/-- `str.splitlines()` without keepends. -/
def splitLines (s : String) : List String :=
  (splitLinesKeepGo [] s.data).map fun l => ⟨stripTrailingBreak l⟩

/-- `line.rstrip("\n")`. -/
def rstripNl (s : String) : String :=
  ⟨(s.data.reverse.dropWhile (· == '\n')).reverse⟩

/-! ### Patch-drift scan (`agents/security.py::_scan_patch_drift`) -/

/-- `{f.path: f.content for f in prev.files}` with dict semantics (later
duplicates win), queried by key. -/
def dictGet (entries : List FileEntry) (key : String) : Option String :=
  (entries.reverse.find? (fun f => f.path == key)).map (fun f => f.content)

/-- The `(index, line)` pairs of all inserted or replaced lines of the new
content relative to the old, numbered from `j1 + 1` and `rstrip("\n")`-ed —
the `added_lines` list of `_scan_patch_drift`. -/
def addedLines (old new : String) : List (Nat × String) :=
  (getOpcodes (splitLinesKeep old) (splitLinesKeep new)).flatMap fun op =>
    match op with
    | (tag, _i1, _i2, j1, j2) =>
      if tag == "insert" || tag == "replace" then
        (((splitLinesKeep new).drop j1).take (j2 - j1)).enum.map
          fun p => (j1 + 1 + p.1, rstripNl p.2)
      else []

/-- The per-file drift scan: an unchanged file is skipped; each added line
yields at most one Issue, from the first matching rule of the combined table
(the `break` of the inner loop). -/
def driftFileIssues (old : String) (f : FileEntry) : List Issue :=
  if old == f.content then []
  else
    (addedLines old f.content).filterMap fun p =>
      (ALL_PATTERNS.find? (fun r => r.pattern p.2)).map fun r =>
        { source := "security", severity := r.severity, file := f.path, line := some p.1,
          message := "[patch-drift] " ++ r.message, suggestion := r.suggestion }

/-- `_scan_patch_drift`: compare `current_files` to the last Iteration's
files (a file not present there gets old content `""`). -/
def scanPatchDrift (state : PipelineState) : List Issue :=
  match state.iterations.getLast? with
  | none => []
  | some prev =>
    state.current_files.flatMap fun f =>
      driftFileIssues ((dictGet prev.files f.path).getD "") f

/-! ### Unified-diff scan (`agents/security.py::SecurityAgent.scan_diff`) -/

/-- Python `str.strip()` whitespace (ASCII range). -/
def isPyStrSpace (c : Char) : Bool :=
  isPySpace c || c == '\x1c' || c == '\x1d' || c == '\x1e' || c == '\x1f' ||
    c == '\x85' || c == '\xa0'

/-- Python `str.strip()`. -/
def pyStrip (s : List Char) : List Char :=
  ((s.dropWhile isPyStrSpace).reverse.dropWhile isPyStrSpace).reverse

/-- Value of a digit run. -/
def digitsVal (l : List Char) : Nat :=
  l.foldl (fun n c => n * 10 + (c.toNat - '0'.toNat)) 0

/-- `re.search(r"\+(\d+)", line)`: the first `+` followed by at least one
digit; yields the value of the maximal digit run. -/
def findPlusDigits : List Char → Option Nat
  | [] => none
  | '+' :: rest =>
    match rest with
    | d :: _ =>
      if d.isDigit then some (digitsVal (rest.takeWhile Char.isDigit))
      else findPlusDigits rest
    | [] => none
  | _ :: rest => findPlusDigits rest

/-- `scan_diff` from `agents/security.py`: track the active file from
`+++ ` headers and the line counter from hunk headers and context lines;
scan only `+`-prefixed lines, first matching rule of the combined table only
(hunk start lines are naturals here, matching Python on well-formed diffs). -/
def scanDiff (diffText : String) : List Issue :=
  ((splitLines diffText).foldl
    (fun acc rawLine =>
      let issuesAcc := acc.1
      let currentFile := acc.2.1
      let lineCount := acc.2.2
      let raw := rawLine.data
      if startsWithChars "+++ ".data raw then
        let parts := pyStrip (raw.drop 4)
        let cf : String := if startsWithChars "b/".data parts then ⟨parts.drop 2⟩ else ⟨parts⟩
        (issuesAcc, cf, 0)
      else if startsWithChars "@@ ".data raw then
        match findPlusDigits raw with
        | some n => (issuesAcc, currentFile, n - 1)
        | none => (issuesAcc, currentFile, 0)
      else if startsWithChars "---".data raw then acc
      else if startsWithChars "+".data raw then
        let lineNum := lineCount + 1
        let line : String := ⟨raw.drop 1⟩
        match ALL_PATTERNS.find? (fun r => r.pattern line) with
        | some r =>
          let issue : Issue :=
            { source := "security", severity := r.severity, file := currentFile,
              line := some lineNum, message := "[diff] " ++ r.message,
              suggestion := r.suggestion }
          (issuesAcc ++ [issue], currentFile, lineNum)
        | none => (issuesAcc, currentFile, lineNum)
      else if !startsWithChars "-".data raw then (issuesAcc, currentFile, lineCount + 1)
      else acc)
    (([] : List Issue), ("unknown" : String), (0 : Nat))).1

/-! ### `SecurityAgent.run` (`agents/security.py`)

The two optional tool runners (`pip-audit`, `semgrep`) spawn external
processes; their outcomes enter the embedding as explicit issue-list
parameters (`[]` is the tool-unavailable/empty degradation the spec
requires). -/

/-- `SecurityAgent.run`: set status, run the whole-snapshot static scan
(auto-fix first, files updated in place), extend with the external tool
results, then the patch-drift scan when a previous Iteration exists. -/
def securityAgentRun (state : PipelineState) (pipAuditIssues semgrepIssues : List Issue) :
    PipelineState × List Issue :=
  let scanned := securityStaticScan state.stack state.current_files
  let state2 := { state with status := "security", current_files := scanned.1 }
  let drift := if state.iterations.isEmpty then [] else scanPatchDrift state2
  (state2, scanned.2 ++ pipAuditIssues ++ semgrepIssues ++ drift)

/-! ### Claim C7: scope of the patch-drift scan -/

/-- Every drift Issue comes from an inserted/replaced line, via the first
matching rule of the combined table. -/
theorem driftFileIssues_member {old : String} {f : FileEntry} {i : Issue}
    (h : i ∈ driftFileIssues old f) :
    ∃ p ∈ addedLines old f.content, ∃ r,
      ALL_PATTERNS.find? (fun rr => rr.pattern p.2) = some r ∧
      i.line = some p.1 ∧ i.message = "[patch-drift] " ++ r.message ∧ i.file = f.path := by
  unfold driftFileIssues at h
  split at h
  · cases h
  · simp only [List.mem_filterMap] at h
    obtain ⟨p, hp, hmap⟩ := h
    obtain ⟨r, hr, hi⟩ := Option.map_eq_some'.mp hmap
    exact ⟨p, hp, r, hr, by rw [← hi], by rw [← hi], by rw [← hi]⟩

/-- The inner block recursion is empty when the `a`-window is empty. -/
theorem matchingBlocksGo_nil_left (b : List String) (fuel blo bhi : Nat) :
    matchingBlocksGo ([] : List String) b fuel 0 0 blo bhi = [] := by
  cases fuel with
  | zero => rfl
  | succ n =>
    simp [matchingBlocksGo, findLongestMatch, Nat.sub_self, List.range']

/-- Against an empty old side, the opcodes are a single full insert. -/
theorem getOpcodes_nil_left (b : List String) :
    getOpcodes ([] : List String) b =
      if b.length = 0 then [] else [("insert", 0, 0, 0, b.length)] := by
  unfold getOpcodes getMatchingBlocks
  rw [show ([] : List String).length = 0 from rfl]
  rw [show (0 + b.length + 1) = b.length + 1 by omega]
  rw [matchingBlocksGo_nil_left]
  simp only [mergeAdjacentGo, ne_eq, not_true_eq_false, if_neg, List.nil_append]
  by_cases hb : b.length = 0
  · simp [hb, List.foldl_cons, List.foldl_nil]
  · have h0 : 0 < b.length := Nat.pos_of_ne_zero hb
    simp [hb, List.foldl_cons, List.foldl_nil, h0]

/-- Against an empty previous version, every line of the file is an added
line: the file is scanned in full. -/
theorem addedLines_nil_old (c : String) :
    addedLines "" c = (splitLinesKeep c).enum.map (fun p => (p.1 + 1, rstripNl p.2)) := by
  unfold addedLines
  rw [show splitLinesKeep "" = [] from rfl]
  rw [getOpcodes_nil_left]
  by_cases hc : (splitLinesKeep c).length = 0
  · rw [if_pos hc]
    rw [List.length_eq_zero.mp hc]
    rfl
  · rw [if_neg hc]
    simp only [List.flatMap_cons, List.flatMap_nil, List.append_nil]
    rw [if_pos (by rfl)]
    rw [List.drop_zero, Nat.sub_zero, List.take_length]
    apply List.map_congr_left
    intro p _
    simp [Nat.add_comm]

/-- Claim C7: the patch-drift scan runs only when a previous Iteration
exists; an unchanged file yields zero drift Issues; every drift Issue comes
from an inserted or replaced line, from the first matching rule in rule
order, with at most one Issue per added line; and a file whose previous
content is empty — in particular one absent from the previous Iteration,
whose old content defaults to `""` — is scanned in full. -/
theorem drift_scan_scope (old : String) (f : FileEntry) (st : PipelineState) :
    (st.iterations = [] → scanPatchDrift st = []) ∧
    (old = f.content → driftFileIssues old f = []) ∧
    ((driftFileIssues old f).length ≤ (addedLines old f.content).length) ∧
    (∀ i ∈ driftFileIssues old f, ∃ p ∈ addedLines old f.content, ∃ r,
        ALL_PATTERNS.find? (fun rr => rr.pattern p.2) = some r ∧
        i.line = some p.1 ∧ i.message = "[patch-drift] " ++ r.message ∧ i.file = f.path) ∧
    (∀ prevFiles : List FileEntry, (∀ g ∈ prevFiles, g.path ≠ f.path) →
        (dictGet prevFiles f.path).getD "" = "") ∧
    (addedLines "" f.content =
      (splitLinesKeep f.content).enum.map (fun p => (p.1 + 1, rstripNl p.2))) := by
  refine ⟨?_, ?_, ?_, fun i hi => driftFileIssues_member hi, ?_, addedLines_nil_old f.content⟩
  · intro hempty
    unfold scanPatchDrift
    rw [hempty]
    rfl
  · intro hold
    unfold driftFileIssues
    rw [if_pos (by simp [hold])]
  · unfold driftFileIssues
    split
    · simp
    · exact List.length_filterMap_le _ _
  · intro prevFiles hnone
    unfold dictGet
    rw [List.find?_eq_none.mpr]
    · rfl
    · intro g hg
      simp only [beq_iff_eq]
      exact hnone g (List.mem_reverse.mp hg)

/-- Claim C7 witness: the theorem evaluated on a two-iteration scenario —
identical content yields no drift Issues; a brand-new file is scanned in
full, its one flagged line coming from the first matching rule. -/
theorem drift_scan_scope_witness :
    (driftFileIssues "x = 1\n" { path := "app.py", content := "x = 1\n", language := "python" } = []) ∧
    (scanPatchDrift { request := "r", iterations := [] } = []) ∧
    (addedLines "" "a = 1\neval(x)\n" =
      (splitLinesKeep "a = 1\neval(x)\n").enum.map (fun p => (p.1 + 1, rstripNl p.2))) ∧
    ((driftFileIssues "" { path := "n.py", content := "a = 1\neval(x)\n", language := "python" }).length ≤
      (addedLines "" "a = 1\neval(x)\n").length) := by
  refine ⟨?_, ?_, ?_, ?_⟩
  · exact (drift_scan_scope "x = 1\n"
      { path := "app.py", content := "x = 1\n", language := "python" }
      { request := "r", iterations := [] }).2.1 rfl
  · exact (drift_scan_scope "x = 1\n"
      { path := "app.py", content := "x = 1\n", language := "python" }
      { request := "r", iterations := [] }).1 rfl
  · exact (drift_scan_scope ""
      { path := "n.py", content := "a = 1\neval(x)\n", language := "python" }
      { request := "r", iterations := [] }).2.2.2.2.2
  · exact (drift_scan_scope ""
      { path := "n.py", content := "a = 1\neval(x)\n", language := "python" }
      { request := "r", iterations := [] }).2.2.1

/-! ### Claim C4: rule partition by artifact kind -/

/-- Issues of a `.py` file's whole-snapshot scan all come from
`SECURITY_PATTERNS`. -/
theorem staticScanFile_py_member {stack : String} {f : FileEntry} {i : Issue}
    (hpy : pyEndsWith f.path ".py" = true) (h : i ∈ (staticScanFile stack f).2) :
    ∃ r ∈ SECURITY_PATTERNS, i.message = r.message ∧ i.severity = r.severity := by
  rw [staticScanFile_py stack f hpy] at h
  obtain ⟨r, hr, h1, h2, -⟩ := scanFileLines_member h
  exact ⟨r, hr, h1, h2⟩

/-- Issues of a non-`.py` file's whole-snapshot scan all come from
`HTML_SECURITY_PATTERNS` or are the CSRF file-level Issue. -/
theorem staticScanFile_tpl_member {stack : String} {f : FileEntry} {i : Issue}
    (hpy : pyEndsWith f.path ".py" = false) (h : i ∈ (staticScanFile stack f).2) :
    (∃ r ∈ HTML_SECURITY_PATTERNS, i.message = r.message ∧ i.severity = r.severity) ∨
      i = csrfIssue f.path := by
  unfold staticScanFile at h
  rw [if_neg (by simp [hpy])] at h
  split at h
  · simp only at h
    rw [List.mem_append] at h
    rcases h with h | h
    · left
      obtain ⟨r, hr, h1, h2, -⟩ := scanFileLines_member h
      exact ⟨r, hr, h1, h2⟩
    · right
      split at h
      · unfold checkCsrf at h
        split at h
        · cases h
        · split at h
          · cases h
          · simp only [Option.toList_some, List.mem_singleton] at h
            exact h
      · cases h
  · cases h

/-- The `.py`-file diff of the C4 counterexample. -/
def c4Diff : String := "+++ b/app.py\n@@ -0,0 +1 @@\n+x | safe"

/-- Claim C4 counterexample: in the unified-diff scan, the markup rule
`| safe` fires on a line of the general-source file `app.py` — a matcher of
one artifact kind evaluated (and reported) against content of the other
kind. -/
theorem diff_scan_crosses_kinds :
    scanDiff c4Diff =
      [{ source := "security", severity := ruleSafeFilter.severity, file := "app.py",
          line := some 1, message := "[diff] " ++ ruleSafeFilter.message,
          suggestion := ruleSafeFilter.suggestion }] ∧
    pyEndsWith "app.py" ".py" = true ∧
    ruleSafeFilter ∈ HTML_SECURITY_PATTERNS := by
  refine ⟨by decide, by decide, ?_⟩
  unfold HTML_SECURITY_PATTERNS
  exact List.mem_cons_self _ _

/-- Drift-scan input of the amended C4 claim. -/
def c4DriftFile : FileEntry := { path := "a.py", content := "x\nv | safe", language := "python" }

/-- Template-file diff of the amended C4 claim. -/
def c4HtmlDiff : String := "+++ b/t.html\n@@ -0,0 +1 @@\n+shell=True"

/-- Claim C4 (amended): in the whole-snapshot scan, rules are partitioned by
artifact kind — a `.py` file's issues all come from the general-source
table, a template file's from the markup table (plus the CSRF check).  In
the patch-drift and unified-diff scans the combined table is applied to
every added line regardless of the file's kind, so a markup rule can fire on
a general-source line (drift on `a.py`) and a general-source rule on a
markup line (diff on `t.html`). -/
theorem scan_kind_partition (stack : String) (f : FileEntry) :
    (pyEndsWith f.path ".py" = true → ∀ i ∈ (staticScanFile stack f).2,
        ∃ r ∈ SECURITY_PATTERNS, i.message = r.message ∧ i.severity = r.severity) ∧
    (pyEndsWith f.path ".py" = false → ∀ i ∈ (staticScanFile stack f).2,
        (∃ r ∈ HTML_SECURITY_PATTERNS, i.message = r.message ∧ i.severity = r.severity) ∨
          i = csrfIssue f.path) ∧
    (driftFileIssues "x" c4DriftFile =
      [{ source := "security", severity := ruleSafeFilter.severity, file := "a.py",
          line := some 2, message := "[patch-drift] " ++ ruleSafeFilter.message,
          suggestion := ruleSafeFilter.suggestion }]) ∧
    (scanDiff c4HtmlDiff =
      [{ source := "security", severity := ruleShellTrue.severity, file := "t.html",
          line := some 1, message := "[diff] " ++ ruleShellTrue.message,
          suggestion := ruleShellTrue.suggestion }]) := by
  refine ⟨fun hpy i hi => staticScanFile_py_member hpy hi,
    fun hpy i hi => staticScanFile_tpl_member hpy hi, by decide, by decide⟩

/-- Claim C4 witness: the partition halves of the amended claim evaluated on
one concrete file of each kind. -/
theorem scan_kind_partition_witness :
    (∀ i ∈ (staticScanFile "flask" { path := "w.py", content := "y = eval(x)", language := "python" }).2,
        ∃ r ∈ SECURITY_PATTERNS, i.message = r.message ∧ i.severity = r.severity) ∧
    (∀ i ∈ (staticScanFile "flask" { path := "w.html", content := "<b>\x7b\x7b v | safe \x7d\x7d</b>", language := "html" }).2,
        (∃ r ∈ HTML_SECURITY_PATTERNS, i.message = r.message ∧ i.severity = r.severity) ∨
          i = csrfIssue "w.html") := by
  constructor
  · exact (scan_kind_partition "flask"
      { path := "w.py", content := "y = eval(x)", language := "python" }).1 (by decide)
  · exact (scan_kind_partition "flask"
      { path := "w.html", content := "<b>\x7b\x7b v | safe \x7d\x7d</b>", language := "html" }).2.1 (by decide)

/-! ### Patch composer (`agents/patch_composer.py`) -/

/-- `sort(key=lambda i: (0 if i.severity == "error" else 1, i.file))`:
errors first, then by file. -/
def issueSortKey (i : Issue) : Nat × String :=
  (if i.severity == "error" then 0 else 1, i.file)

/-- Strict comparison of sort keys (lexicographic). -/
def issueKeyLt (a b : Issue) : Bool :=
  (issueSortKey a).1 < (issueSortKey b).1 ||
    ((issueSortKey a).1 == (issueSortKey b).1 && (issueSortKey a).2 < (issueSortKey b).2)

/-- Stable insertion into a sorted list (skip strictly smaller keys, so
equal keys keep their original order). -/
def insertIssueSorted (x : Issue) : List Issue → List Issue
  | [] => [x]
  | y :: ys => if issueKeyLt y x then y :: insertIssueSorted x ys else x :: y :: ys

/-- Python's stable `list.sort` with the composer's key (a stable sort is
uniquely determined by the key, so insertion sort is a faithful model). -/
def pySortIssues (l : List Issue) : List Issue :=
  l.foldr insertIssueSorted []

/-- `PatchComposer.run` (`agents/patch_composer.py`): empty for no issues or
no error/warning issues; otherwise a header plus one numbered entry per
actionable issue, errors first then by file; `if issue.line:` is Python
truthiness, so line 0 or `None` omit the location suffix. -/
def composePatch (allIssues : List Issue) : String :=
  if allIssues.isEmpty then ""
  else
    let actionable := allIssues.filter (fun i => i.severity == "error" || i.severity == "warning")
    if actionable.isEmpty then ""
    else
      let sorted := pySortIssues actionable
      let entryLines := sorted.enum.map fun p =>
        let idx := p.1 + 1
        let issue := p.2
        let sev := issue.severity.toUpper
        let loc :=
          match issue.line with
          | some n => if n ≠ 0 then issue.file ++ " line " ++ toString n else issue.file
          | none => issue.file
        s!"{idx}. [{sev}] {loc}: " ++ issue.message ++ "\n   Fix: " ++ issue.suggestion
      String.intercalate "\n" ("Fix the following issues in the code:\n" :: entryLines)

/-! ### Orchestrator (`core/orchestrator.py::Orchestrator.run_iteration`)

The generation, review and test stages are external collaborators (§6 of the
spec: they call a text-generation service and the sandbox); one
`run_iteration` consumes their outputs, which the embedding supplies as an
explicit record.  The security stage is the embedded `SecurityAgent.run`,
with the two optional external tools entering as issue-list parameters. -/

/-- The collaborator outputs one `run_iteration` consumes: `current_files`
as of the security stage (written by the generator and possibly extended by
the tester's stub generators), `state._review_issues`, `state._test_issues`,
`state._lint_passed`/`state._tests_passed` (the `getattr` defaults are
`True`), and the external results of the two optional security tools (`[]`
when unavailable). -/
structure StageOutcome where
  currentFiles : List FileEntry
  reviewIssues : List Issue
  testIssues : List Issue
  lintPassed : Bool := true
  testsPassed : Bool := true
  pipAuditIssues : List Issue := []
  semgrepIssues : List Issue := []

/-- `f"Hard safety limit reached ({hard_max}). Cannot run more iterations."` -/
def hardLimitMessage (n : Nat) : String :=
  s!"Hard safety limit reached ({n}). Cannot run more iterations."

/-- The security stage of one iteration: `SecurityAgent.run` applied to the
state whose `current_files` the earlier stages produced. -/
def iterationSecurityScan (state : PipelineState) (o : StageOutcome) :
    PipelineState × List Issue :=
  securityAgentRun { state with current_files := o.currentFiles }
    o.pipAuditIssues o.semgrepIssues

/-- `state._security_issues` of one iteration. -/
def iterationSecurityIssues (state : PipelineState) (o : StageOutcome) : List Issue :=
  (iterationSecurityScan state o).2

/-- The Iteration record `run_iteration` appends (in the non-guard path):
issues concatenated review ++ test ++ security, `security_passed` iff no
security-stage issue has severity `"error"`, lint/tests flags from the test
stage. -/
def builtIteration (state : PipelineState) (o : StageOutcome) : Iteration :=
  { number := state.iterations.length + 1,
    files := (iterationSecurityScan state o).1.current_files,
    issues := o.reviewIssues ++ o.testIssues ++ iterationSecurityIssues state o,
    lint_passed := o.lintPassed,
    tests_passed := o.testsPassed,
    security_passed := !(iterationSecurityIssues state o).any (fun i => i.severity == "error") }

/-- `Orchestrator.run_iteration`: hard-ceiling guard, the four stages, the
new Iteration, then the quality gate deciding `"done"` versus
`"awaiting_approval"` (with patch instructions composed on failure). -/
def runIteration (state : PipelineState) (o : StageOutcome) : PipelineState :=
  if hard_max_iterations ≤ state.iterations.length then
    { state with
      status := "done",
      errors := state.errors ++ [hardLimitMessage hard_max_iterations] }
  else
    let iteration := builtIteration state o
    let state3 := { (iterationSecurityScan state o).1 with
      iterations := state.iterations ++ [iteration] }
    if quality_gates_pass iteration then { state3 with status := "done" }
    else
      { state3 with
        status := "awaiting_approval",
        patch_instructions := composePatch iteration.issues }

/-- Claim C2: at or past the hard ceiling, `run_iteration` appends the
human-readable ceiling message to `state.errors`, sets status `"done"` and
appends no Iteration; consequently `len(iterations) ≤ hard ceiling` is
preserved by every call. -/
theorem run_iteration_ceiling (state : PipelineState) (o : StageOutcome) :
    (hard_max_iterations ≤ state.iterations.length →
      (runIteration state o).status = "done" ∧
      (runIteration state o).errors =
        state.errors ++ [hardLimitMessage hard_max_iterations] ∧
      (runIteration state o).iterations = state.iterations) ∧
    (state.iterations.length ≤ hard_max_iterations →
      (runIteration state o).iterations.length ≤ hard_max_iterations) := by
  constructor
  · intro hge
    unfold runIteration
    rw [if_pos hge]
    exact ⟨rfl, rfl, rfl⟩
  · intro hle
    by_cases hge : hard_max_iterations ≤ state.iterations.length
    · unfold runIteration
      rw [if_pos hge]
      exact hle
    · have hlt : state.iterations.length < hard_max_iterations := Nat.lt_of_not_le hge
      unfold runIteration
      rw [if_neg hge]
      dsimp only
      split <;>
        · simp only [List.length_append, List.length_singleton]
          omega

/-- Claim C2 witness: a state already holding five Iterations is left with
five Iterations, status `"done"` and the ceiling message appended. -/
theorem run_iteration_ceiling_witness :
    ((runIteration
        { request := "r",
          iterations := List.replicate 5
            { number := 1, files := [], issues := [], lint_passed := true,
              tests_passed := true, security_passed := true } }
        { currentFiles := [], reviewIssues := [], testIssues := [] }).status = "done" ∧
      (runIteration
        { request := "r",
          iterations := List.replicate 5
            { number := 1, files := [], issues := [], lint_passed := true,
              tests_passed := true, security_passed := true } }
        { currentFiles := [], reviewIssues := [], testIssues := [] }).iterations.length ≤ 5) := by
  refine ⟨?_, ?_⟩
  · exact ((run_iteration_ceiling
      { request := "r",
        iterations := List.replicate 5
          { number := 1, files := [], issues := [], lint_passed := true,
            tests_passed := true, security_passed := true } }
      { currentFiles := [], reviewIssues := [], testIssues := [] }).1 (by decide)).1
  · exact (run_iteration_ceiling
      { request := "r",
        iterations := List.replicate 5
          { number := 1, files := [], issues := [], lint_passed := true,
            tests_passed := true, security_passed := true } }
      { currentFiles := [], reviewIssues := [], testIssues := [] }).2 (by decide)

/-- Below the ceiling, `run_iteration` appends exactly the built Iteration. -/
theorem runIteration_appends (state : PipelineState) (o : StageOutcome)
    (h : state.iterations.length < hard_max_iterations) :
    (runIteration state o).iterations = state.iterations ++ [builtIteration state o] := by
  unfold runIteration
  rw [if_neg (Nat.not_le_of_lt h)]
  dsimp only
  split <;> rfl

/-- Claim C10: in every Iteration appended by `run_iteration`, the
`security_passed` flag is true iff no issue produced by the security stage
has severity `"error"`; error issues from the review or test stages never
affect it (they do enter the Iteration's combined issue list); and
`lint_passed`/`tests_passed` are taken solely from the test stage. -/
theorem iteration_security_flag (state : PipelineState) (o : StageOutcome)
    (h : state.iterations.length < hard_max_iterations) :
    (runIteration state o).iterations = state.iterations ++ [builtIteration state o] ∧
    ((builtIteration state o).security_passed = true ↔
      ∀ i ∈ iterationSecurityIssues state o, i.severity ≠ "error") ∧
    (builtIteration state o).lint_passed = o.lintPassed ∧
    (builtIteration state o).tests_passed = o.testsPassed ∧
    (builtIteration state o).issues =
      o.reviewIssues ++ o.testIssues ++ iterationSecurityIssues state o ∧
    (∀ rev tst lint tsts,
      (builtIteration state
        { o with
          reviewIssues := rev, testIssues := tst,
          lintPassed := lint, testsPassed := tsts }).security_passed =
      (builtIteration state o).security_passed) := by
  refine ⟨runIteration_appends state o h, ?_, rfl, rfl, rfl, fun rev tst lint tsts => rfl⟩
  unfold builtIteration
  simp [List.any_eq_true]

/-- The concrete pipeline state of the C10 witness. -/
def c10State : PipelineState := { request := "r", stack := "script" }

/-- A review-stage error Issue. -/
def c10ReviewIssue : Issue :=
  { source := "reviewer", severity := "error", file := "m.py", line := some 1,
    message := "bad", suggestion := "fix" }

/-- The concrete stage outputs of the C10 witness. -/
def c10Outcome : StageOutcome :=
  { currentFiles := [{ path := "m.py", content := "x = 1", language := "python" }],
    reviewIssues := [c10ReviewIssue], testIssues := [] }

/-- Claim C10 witness: one concrete iteration below the ceiling — a review
error enters the combined issue list while `security_passed` is still
characterized by the security-stage issues alone. -/
theorem iteration_security_flag_witness :
    ((runIteration c10State c10Outcome).iterations =
      c10State.iterations ++ [builtIteration c10State c10Outcome]) ∧
    ((builtIteration c10State c10Outcome).security_passed = true ↔
      ∀ i ∈ iterationSecurityIssues c10State c10Outcome, i.severity ≠ "error") := by
  refine ⟨?_, ?_⟩
  · exact (iteration_security_flag c10State c10Outcome (by decide)).1
  · exact (iteration_security_flag c10State c10Outcome (by decide)).2.1

/-! ### `Orchestrator.run_full` (`core/orchestrator.py`)

`run_full` creates and plans the state (planning is an external
text-generation collaborator, so the planned state enters as a parameter),
then loops `run_iteration` under `loop_limit` with the human-approval
callback, and finally normalizes the status (README generation and the
output-directory write are I/O steps that touch neither `iterations` nor
`status`). -/

/-- `on_iteration` — the approval callback. -/
abbrev ApprovalCallback := PipelineState → Iteration → Bool

/-- `loop_limit = hard_max if on_iteration else min(max_iterations or 2, hard_max)`
(`or` is Python truthiness: `None` and `0` both fall back to 2). -/
def runFullLoopLimit (maxIterations : Option Nat) (hasCallback : Bool) : Nat :=
  if hasCallback then hard_max_iterations
  else
    min
      (match maxIterations with
        | none => 2
        | some 0 => 2
        | some n => n)
      hard_max_iterations

/-- Fallback for `state.iterations[-1]` (unreachable: the loop reads it only
after `run_iteration` has appended an Iteration). -/
def emptyIteration : Iteration :=
  { number := 0, files := [], issues := [], lint_passed := true, tests_passed := true,
    security_passed := true }

/-- The `for i in range(loop_limit)` body of `run_full`: run one iteration;
stop on `"done"`; on `"awaiting_approval"` consult the callback (absence or a
`False` answer sets `"done"` and stops). -/
def runFullLoop (cb : Option ApprovalCallback) (outcomes : Nat → StageOutcome) :
    Nat → Nat → PipelineState → PipelineState
  | 0, _, st => st
  | fuel + 1, idx, st =>
    let st2 := runIteration st (outcomes idx)
    if st2.status == "done" then st2
    else if st2.status == "awaiting_approval" then
      match cb with
      | some f =>
        if f st2 (st2.iterations.getLastD emptyIteration) then
          runFullLoop cb outcomes fuel (idx + 1) st2
        else { st2 with status := "done" }
      | none => { st2 with status := "done" }
    else runFullLoop cb outcomes fuel (idx + 1) st2

/-- `run_full` after planning: the approval loop, then
`if state.status != "failed": state.status = "done"`. -/
def runFull (maxIterations : Option Nat) (cb : Option ApprovalCallback)
    (outcomes : Nat → StageOutcome) (planned : PipelineState) : PipelineState :=
  let st := runFullLoop cb outcomes (runFullLoopLimit maxIterations cb.isSome) 0 planned
  if st.status != "failed" then { st with status := "done" } else st

/-- `run_iteration` always ends `"done"` or `"awaiting_approval"`. -/
theorem runIteration_status (state : PipelineState) (o : StageOutcome) :
    (runIteration state o).status = "done" ∨
      (runIteration state o).status = "awaiting_approval" := by
  unfold runIteration
  split
  · left
    rfl
  · dsimp only
    split
    · left
      rfl
    · right
      rfl

/-- `run_iteration` appends at most one Iteration. -/
theorem runIteration_length_le (state : PipelineState) (o : StageOutcome) :
    (runIteration state o).iterations.length ≤ state.iterations.length + 1 := by
  unfold runIteration
  split
  · exact Nat.le_succ _
  · dsimp only
    split <;> simp [List.length_append]

/-- Claim C9 counterexample: without a callback and with a requested cap of
3, `run_full`'s loop bound is `min(3 or 2, hard ceiling) = 3`, not
`min(requested, 2) = 2` as claimed. -/
theorem loop_limit_not_min_requested_two :
    runFullLoopLimit (some 3) false ≠ min 3 2 := by decide

/-- Claim C9 (amended): with a callback the loop bound is the hard ceiling;
without one the bound variable is `min(requested or default 2, hard ceiling)`
— the request is clamped to the hard ceiling, not to 2 — and the loop in
fact halts after the first iteration with status `"done"` (no auto-looping
without a callback); a `false`/decline response from the callback halts the
loop and sets status `"done"`. -/
theorem run_full_loop_behavior :
    (∀ r : Option Nat, runFullLoopLimit r true = hard_max_iterations) ∧
    (runFullLoopLimit none false = 2 ∧ runFullLoopLimit (some 3) false = 3 ∧
      runFullLoopLimit (some 7) false = hard_max_iterations ∧
      runFullLoopLimit (some 0) false = 2) ∧
    (∀ (outcomes : Nat → StageOutcome) (st : PipelineState) (fuel idx : Nat),
      (runFullLoop none outcomes (fuel + 1) idx st).status = "done" ∧
      (runFullLoop none outcomes (fuel + 1) idx st).iterations.length ≤
        st.iterations.length + 1) ∧
    (∀ (f : ApprovalCallback) (outcomes : Nat → StageOutcome) (st : PipelineState)
        (fuel idx : Nat),
      (runIteration st (outcomes idx)).status = "awaiting_approval" →
      f (runIteration st (outcomes idx))
          ((runIteration st (outcomes idx)).iterations.getLastD emptyIteration) = false →
      runFullLoop (some f) outcomes (fuel + 1) idx st =
        { runIteration st (outcomes idx) with status := "done" }) := by
  refine ⟨fun r => rfl, ⟨rfl, rfl, rfl, rfl⟩, ?_, ?_⟩
  · intro outcomes st fuel idx
    show ((let st2 := runIteration st (outcomes idx); _ : PipelineState)).status = "done" ∧ _
    rcases runIteration_status st (outcomes idx) with hdone | hawait
    · have hbeq : ((runIteration st (outcomes idx)).status == "done") = true := by
        simp [hdone]
      unfold runFullLoop
      rw [if_pos hbeq]
      exact ⟨hdone, runIteration_length_le st (outcomes idx)⟩
    · have hbeq : ((runIteration st (outcomes idx)).status == "done") = false := by
        rw [hawait]
        rfl
      have hbeq2 : ((runIteration st (outcomes idx)).status == "awaiting_approval") = true := by
        simp [hawait]
      unfold runFullLoop
      rw [if_neg (by simp [hbeq]), if_pos hbeq2]
      exact ⟨rfl, runIteration_length_le st (outcomes idx)⟩
  · intro f outcomes st fuel idx hawait hf
    have hbeq : ((runIteration st (outcomes idx)).status == "done") = false := by
      rw [hawait]
      rfl
    have hbeq2 : ((runIteration st (outcomes idx)).status == "awaiting_approval") = true := by
      simp [hawait]
    unfold runFullLoop
    rw [if_neg (by simp [hbeq]), if_pos hbeq2]
    dsimp only
    rw [hf]
    rfl

/-- The concrete pipeline state of the C9 witness. -/
def c9State : PipelineState := { request := "r", stack := "script" }

/-- Stage outputs with one review error, so the gate fails and the loop
reaches the approval decision. -/
def c9Outcome : StageOutcome :=
  { currentFiles := [],
    reviewIssues := [{ source := "reviewer", severity := "error", file := "m.py",
                       line := some 1, message := "bad", suggestion := "fix" }],
    testIssues := [] }

/-- Claim C9 witness: without a callback the loop stops with status
`"done"`; with an always-declining callback it stops after the declined
iteration with status `"done"`. -/
theorem run_full_loop_behavior_witness :
    (runFullLoop none (fun _ => c9Outcome) 5 0 c9State).status = "done" ∧
    runFullLoop (some (fun _ _ => false)) (fun _ => c9Outcome) 5 0 c9State =
      { runIteration c9State c9Outcome with status := "done" } := by
  constructor
  · exact (run_full_loop_behavior.2.2.1 (fun _ => c9Outcome) c9State 4 0).1
  · exact run_full_loop_behavior.2.2.2 (fun _ _ => false) (fun _ => c9Outcome) c9State 4 0
      (by decide) rfl

end AgentPipeline
